import Mathlib

/-!
Verification of the Pico Beacon firmware core: the ciNet protocol codec
(`pico_beacon/protocol/cinet_message.py`, `pack.py`) and the mode/state
controller (`pico_beacon/main.py`, `config.py`, `utils/power_manager.py`).

The Python code is shallowly embedded: byte buffers become functions
`Nat → Nat` updated in place by explicit writes, machine integers become
`Nat`/`Int` with explicit masking, Python floats become `Rat` (every value
the claims touch is exactly representable), dicts with optional keys become
structures of `Option` fields read through `Option.getD` (mirroring
`dict.get(key, default)`), and the controller's mutable object state
becomes explicit state passing.

The repository imports `protocol.crc` (CRC16) and `protocol.blowfish`
(Blowfish, derive_key), whose sources are not in the excerpt; they are
modelled from the specification's contracts (pure 16-bit checksum over a
byte range; keyed 64-bit-block ECB cipher; deterministic key derivation)
and the codec is kept parametric in them wherever possible.
-/

namespace Proto

/-! ## Byte buffers

A `bytearray` is modelled as a base function from index to byte overlaid
by a log of in-place writes, one log entry per Python assignment (most
recent entry first); a read falls through the log to the base.  The
149-byte message handed back by `build` is the restriction of the final
buffer to indices `0..148`. -/

/-- One in-place write: a single byte (`buf[i] = v`) or a slice
(`buf[i : i + len(vs)] = vs`; the sources only assign slices whose length
equals that of the right-hand side, so the buffer never changes size). -/
inductive Wr where
  | one (i v : Nat)
  | many (i : Nat) (vs : List Nat)

/-- Read index `j` through a write log over a base buffer. -/
def readW : List Wr → (Nat → Nat) → Nat → Nat
  | [], base, j => base j
  | Wr.one i v :: ws, base, j => if j = i then v else readW ws base j
  | Wr.many i vs :: ws, base, j =>
    if i ≤ j ∧ j < i + vs.length then vs.getD (j - i) 0 else readW ws base j

/-- Read `len` consecutive bytes starting at `off`. -/
def extract (buf : Nat → Nat) (off len : Nat) : List Nat :=
  (List.range len).map fun k => buf (off + k)

/-! ## `protocol/pack.py`

Each pack routine mutates `buf` at fixed offsets; it is embedded as the
write-log entries it appends (listed most recent first). -/

/-- Python `pack2(buf, offset, value)`: 16-bit big-endian write. -/
def pack2 (offset value : Nat) : List Wr :=
  [Wr.one (offset + 1) (value &&& 0xFF),
   Wr.one offset ((value >>> 8) &&& 0xFF)]

/-- Python `pack4(buf, offset, value)`: 32-bit big-endian write. -/
def pack4 (offset value : Nat) : List Wr :=
  [Wr.one (offset + 3) (value &&& 0xFF),
   Wr.one (offset + 2) ((value >>> 8) &&& 0xFF),
   Wr.one (offset + 1) ((value >>> 16) &&& 0xFF),
   Wr.one offset ((value >>> 24) &&& 0xFF)]

/-- Conversion step of `pack_signed4`: a negative value is first brought
into unsigned 32-bit representation by `value & 0xFFFFFFFF` (which for
Python ints is `value mod 2^32`). -/
def toU32 (value : Int) : Nat :=
  if value < 0 then (value % 4294967296).toNat else value.toNat

/-- Python `pack_signed4(buf, offset, value)`. -/
def pack_signed4 (offset : Nat) (value : Int) : List Wr :=
  pack4 offset (toU32 value)

/-- First index a write touches. -/
def wrLo : Wr → Nat
  | Wr.one i _ => i
  | Wr.many i _ => i

/-- One past the last index a write touches. -/
def wrHi : Wr → Nat
  | Wr.one i _ => i + 1
  | Wr.many i vs => i + vs.length

/-- Whether some write of the log touches index `j`. -/
def coversB (ws : List Wr) (j : Nat) : Bool :=
  ws.any fun w => decide (wrLo w ≤ j) && decide (j < wrHi w)

/-! ## Python numeric helpers -/

/-- Python `int(x)` on a numeric value: truncation toward zero. -/
def pyTrunc (x : Rat) : Int :=
  x.num.tdiv (x.den : Int)

/-- Python `v & mask` for a possibly negative `v` and a mask of the form
`2^k - 1` (the only masks appearing in the sources): the result is
`v mod (mask+1)`, which is non-negative. -/
def pyAnd (v : Int) (mask : Nat) : Nat :=
  (v % ((mask : Int) + 1)).toNat

/-- Python `(~v) & 0xFF` for `v ≥ 0`: the complemented low byte. -/
def pyNotByte (v : Nat) : Nat :=
  255 - v % 256

/-! ## `CiNetMessage` constants (`protocol/cinet_message.py`) -/

def MSG_LENGTH : Nat := 149
def HEADER_LENGTH : Nat := 51
def ENCRYPTED_LENGTH : Nat := 96
def ENCRYPTED_BLOCKS : Nat := 12
def START_BYTE : Nat := 0x24
def PACKET_TYPE : Nat := 0x55
def CINET_TYPE : Nat := 0x44
def MESSAGE_TYPE : Nat := 0x02
def ALARM_DEFAULT : Nat := 0xFF
def MILLITAG_SPECIFIC_LEN : Nat := 0x2E

/-! ## Datong timestamps -/

/-- `CiNetMessage._encode_datong_timestamp`: pack a date-time into the
protocol's 5-byte bit layout. -/
def encode_datong_timestamp (year month day hour minute second : Nat) : List Nat :=
  [ ((day &&& 0x1F) <<< 3) ||| ((month >>> 1) &&& 0x07),
    ((year - 1980) &&& 0x7F) ||| ((month &&& 0x01) <<< 7),
    ((hour &&& 0x1F) <<< 3) ||| ((minute >>> 3) &&& 0x07),
    ((minute &&& 0x07) <<< 5) ||| ((second >>> 1) &&& 0x1F),
    (second &&& 0x01) <<< 7 ]

/-- `CiNetMessage.decode_datong_timestamp`: unpack the 5-byte layout back
into `(year, month, day, hour, minute, second)`. -/
def decode_datong_timestamp (ts : List Nat) : Nat × Nat × Nat × Nat × Nat × Nat :=
  let t0 := ts.getD 0 0
  let t1 := ts.getD 1 0
  let t2 := ts.getD 2 0
  let t3 := ts.getD 3 0
  let t4 := ts.getD 4 0
  let day := (t0 >>> 3) &&& 0x1F
  let month := ((t0 &&& 0x07) <<< 1) ||| ((t1 >>> 7) &&& 0x01)
  let year := (t1 &&& 0x7F) + 1980
  let hour := (t2 >>> 3) &&& 0x1F
  let minute := ((t2 &&& 0x07) <<< 3) ||| ((t3 >>> 5) &&& 0x07)
  let second := ((t3 &&& 0x1F) <<< 1) ||| ((t4 >>> 7) &&& 0x01)
  (year, month, day, hour, minute, second)

/-! ## Input dictionaries -/

/-- The `gps_data` dict consumed by `build`; an absent key is `none`, and
each read site applies the default of the corresponding `dict.get`. -/
structure GpsDict where
  latitude : Option Rat := none
  longitude : Option Rat := none
  altitude : Option Rat := none
  speed : Option Rat := none
  heading : Option Rat := none
  hdop : Option Rat := none
  satellites : Option Nat := none
  valid : Option Bool := none
  timestamp : Option (Nat × Nat × Nat × Nat × Nat × Nat) := none

/-- The `device_status` dict consumed by `build`. -/
structure StatusDict where
  battery : Option Int := none
  temperature : Option Int := none
  rssi : Option Int := none
  motion : Option Nat := none
  status_flags : Option Nat := none
  lac : Option Nat := none
  cell_id : Option Nat := none
  act : Option Nat := none
  beacon_mode : Option Nat := none
  motion_sensitivity : Option Nat := none
  wake_trigger : Option Nat := none
  output_state : Option Nat := none
  geozone : Option Nat := none
  input_state : Option Nat := none
  alerts : Option Nat := none

/-! ## Device identity (`config.py` `ConfigManager` getters)

Strings are modelled as their lists of character codes. -/

structure CiNetConfig where
  passphrase : List Nat
  cinet_key : Nat
  serial_number : List Nat
  client_name : List Nat
  source_type : List Nat
  fw_version_major : Option Nat := none
  fw_version_minor : Option Nat := none
  fw_version_patch : Option Nat := none

/-- `ConfigManager.get_serial_bytes`: the serial truncated to 23 chars and
null-padded to 24 bytes. -/
def get_serial_bytes (c : CiNetConfig) : List Nat :=
  let s := c.serial_number.take 23
  s ++ List.replicate (24 - s.length) 0

/-- `ConfigManager.get_client_name_bytes`: 19 chars, padded to 20 bytes. -/
def get_client_name_bytes (c : CiNetConfig) : List Nat :=
  let s := c.client_name.take 19
  s ++ List.replicate (20 - s.length) 0

/-- `ConfigManager.get_source_type_bytes`: 11 chars, padded to 12 bytes. -/
def get_source_type_bytes (c : CiNetConfig) : List Nat :=
  let s := c.source_type.take 11
  s ++ List.replicate (12 - s.length) 0

/-- `ConfigManager.get_operator_bytes`: the fixed string `Pico`, padded to
8 bytes. -/
def get_operator_bytes : List Nat :=
  [0x50, 0x69, 0x63, 0x6F, 0, 0, 0, 0]

/-- Python `bytes.rstrip(b'\x00')`: drop trailing null bytes. -/
def rstripNulls (l : List Nat) : List Nat :=
  (l.reverse.dropWhile (· = 0)).reverse

/-! ## `CiNetMessage.build` -/

/-- Timestamp selection at the top of `build`: use `gps_data['timestamp']`
when present (a non-empty tuple is truthy), else the placeholder
`2024-01-01 00:00:00`. -/
def message_timestamp (gps : GpsDict) : Nat × Nat × Nat × Nat × Nat × Nat :=
  match gps.timestamp with
  | some ts => ts
  | none => (2024, 1, 1, 0, 0, 0)

/-- `CiNetMessage._build_header`: the plaintext header writes, bytes 0-50
(log order: last assignment of the source first). -/
def build_header (cfg : CiNetConfig) (sequence : Nat)
    (datong_ts : List Nat) : List Wr :=
  [Wr.many 46 datong_ts,
   Wr.many 22 (get_serial_bytes cfg),
   Wr.many 10 (get_source_type_bytes cfg),
   Wr.one 9 CINET_TYPE]
  ++ pack4 5 cfg.cinet_key
  ++ [Wr.one 4 sequence]
  ++ pack2 2 MSG_LENGTH
  ++ [Wr.one 1 PACKET_TYPE,
      Wr.one 0 START_BYTE]

/-- The header writes performed after the sequence byte (log order). -/
def build_header_front (cfg : CiNetConfig) (datong_ts : List Nat) : List Wr :=
  [Wr.many 46 datong_ts,
   Wr.many 22 (get_serial_bytes cfg),
   Wr.many 10 (get_source_type_bytes cfg),
   Wr.one 9 CINET_TYPE]
  ++ pack4 5 cfg.cinet_key

/-- The header writes performed before the sequence byte (log order). -/
def build_header_back : List Wr :=
  pack2 2 MSG_LENGTH
  ++ [Wr.one 1 PACKET_TYPE,
      Wr.one 0 START_BYTE]

/-- `status = device_status or {}` at the top of `_build_payload`: a
missing status dict behaves as an empty one. -/
def statusOrEmpty (device_status : Option StatusDict) : StatusDict :=
  device_status.getD {}

/-- `CiNetMessage._build_payload`: the plaintext payload writes, bytes
51-146 (log order: last assignment of the source first). -/
def build_payload (cfg : CiNetConfig) (gps : GpsDict)
    (device_status : Option StatusDict) (datong_ts : List Nat) : List Wr :=
  let status := statusOrEmpty device_status
  [Wr.one 146 0]
  ++ pack2 144 (status.alerts.getD 0)
  ++ [Wr.one 143 (status.input_state.getD 0),
      Wr.one 142 (status.geozone.getD 0),
      Wr.one 141 (status.output_state.getD 0),
      Wr.one 140 (status.wake_trigger.getD 0),
      Wr.one 139 (status.motion_sensitivity.getD 1),
      Wr.one 138 (status.beacon_mode.getD 0)]
  ++ pack4 134 0
  ++ pack4 130 0
  ++ [Wr.one 129 (cfg.fw_version_patch.getD 0),
      Wr.one 128 (cfg.fw_version_minor.getD 0),
      Wr.one 127 (cfg.fw_version_major.getD 1),
      Wr.many 119 get_operator_bytes]
  ++ pack2 117 (status.act.getD 7)
  ++ pack2 115 (status.cell_id.getD 0)
  ++ pack2 113 (status.lac.getD 0)
  ++ pack2 111 (status.status_flags.getD 0)
  ++ pack4 107 0
  ++ pack4 103 (pyAnd (status.rssi.getD 0) 0xFFFFFFFF)
  ++ [Wr.one 102 ((gps.satellites.getD 0) &&& 0xFF),
      Wr.one 101 (pyAnd (status.temperature.getD 20) 0xFF),
      Wr.one 100 (min 100 (max 0 (status.battery.getD 100))).toNat]
  ++ pack2 98 MILLITAG_SPECIFIC_LEN
  ++ [Wr.one 97 ALARM_DEFAULT,
      Wr.one 96 (status.motion.getD 0),
      Wr.one 95 (if gps.valid.getD false then 1 else 0)]
  ++ pack2 93 (pyAnd (pyTrunc ((gps.hdop.getD (999 / 10)) * 100)) 0xFFFF)
  ++ [Wr.many 88 datong_ts]
  ++ pack2 86 (pyAnd (pyTrunc (gps.speed.getD 0)) 0xFFFF)
  -- `heading = gps_data.get('heading')` followed by an `is not None` test
  ++ (if gps.heading.isSome then
        pack2 84 (pyAnd (pyTrunc ((gps.heading.getD 0) * 100)) 0xFFFF)
      else pack2 84 0xFFFF)
  ++ pack_signed4 80 (pyTrunc ((gps.longitude.getD 0) * 60000))
  ++ pack_signed4 76 (pyTrunc ((gps.latitude.getD 0) * 60000))
  ++ [Wr.many 56 (get_client_name_bytes cfg),
      Wr.one 55 MESSAGE_TYPE,
      Wr.one 54 0,
      Wr.one 53 0]
  ++ pack2 51 ENCRYPTED_LENGTH

/-- `Blowfish.encrypt(buf, offset, nblocks)` operates in place on
`nblocks` consecutive 8-byte blocks; each output byte depends only on the
8 bytes of its own block (electronic-codebook mode, spec §4.3).  The
engine itself is a parameter `enc` mapping a block to a block. -/
def encryptBlocks (enc : (Fin 8 → Nat) → Fin 8 → Nat) (buf : Nat → Nat)
    (offset nblocks : Nat) : Nat → Nat :=
  fun j =>
    if offset ≤ j ∧ j < offset + 8 * nblocks then
      enc (fun k => buf (offset + 8 * ((j - offset) / 8) + k.1))
        ⟨(j - offset) % 8, Nat.mod_lt _ (by norm_num)⟩
    else buf j

/-- The 5-byte Datong timestamp `build` computes from its GPS input. -/
def build_ts (gps : GpsDict) : List Nat :=
  let t := message_timestamp gps
  encode_datong_timestamp t.1 t.2.1 t.2.2.1 t.2.2.2.1 t.2.2.2.2.1 t.2.2.2.2.2

/-- Buffer state of `build` up to and including `_build_payload` (the
payload writes overlay the header writes, which overlay the reused
buffer). -/
def plain_message (cfg : CiNetConfig) (seq : Nat) (gps : GpsDict)
    (device_status : Option StatusDict) (buf0 : Nat → Nat) : Nat → Nat :=
  readW (build_payload cfg gps device_status (build_ts gps)
    ++ build_header cfg seq (build_ts gps)) buf0

/-- Buffer state after the payload checksum is stored: `build` computes
the 16-bit checksum of bytes 55-146 and stores its complemented low byte
at 53 and its complemented high byte at 54. -/
def checksummed_message (crc16 : List Nat → Nat) (cfg : CiNetConfig) (seq : Nat)
    (gps : GpsDict) (device_status : Option StatusDict) (buf0 : Nat → Nat) : Nat → Nat :=
  let buf := plain_message cfg seq gps device_status buf0
  let crc_value := crc16 (extract buf 55 92)
  readW [Wr.one 54 (pyNotByte (crc_value >>> 8)),
         Wr.one 53 (pyNotByte crc_value)] buf

/-- Buffer state after in-place encryption of bytes 51-146 (12 blocks). -/
def encrypted_message (crc16 : List Nat → Nat) (enc : (Fin 8 → Nat) → Fin 8 → Nat)
    (cfg : CiNetConfig) (seq : Nat) (gps : GpsDict) (device_status : Option StatusDict)
    (buf0 : Nat → Nat) : Nat → Nat :=
  encryptBlocks enc (checksummed_message crc16 cfg seq gps device_status buf0)
    51 ENCRYPTED_BLOCKS

/-- `CiNetMessage.build`: increments the sequence counter, rebuilds the
buffer in place, and finally stores the complemented whole-message
checksum (over bytes 0-146, after encryption) at bytes 147-148.  Returns
the final buffer and the new sequence counter. -/
def build (crc16 : List Nat → Nat) (enc : (Fin 8 → Nat) → Fin 8 → Nat)
    (cfg : CiNetConfig) (buf0 : Nat → Nat) (sequence : Nat) (gps : GpsDict)
    (device_status : Option StatusDict) : (Nat → Nat) × Nat :=
  let seq := (sequence + 1) &&& 0xFF
  let buf := encrypted_message crc16 enc cfg seq gps device_status buf0
  let crc2 := crc16 (extract buf 0 147)
  (readW [Wr.one 148 (pyNotByte (crc2 >>> 8)),
          Wr.one 147 (pyNotByte crc2)] buf, seq)

/-- The mutable state of a `CiNetMessage` instance: the pre-allocated
(and reused) 149-byte buffer and the sequence counter. -/
structure MsgState where
  buffer : Nat → Nat
  sequence : Nat

/-- State of a freshly constructed `CiNetMessage`: zeroed buffer,
sequence counter 0. -/
def initState : MsgState :=
  { buffer := fun _ => 0, sequence := 0 }

/-- One call of `build` on a `CiNetMessage` instance: the returned value
is the (snapshot of the) 149-byte buffer. -/
def buildCall (crc16 : List Nat → Nat) (enc : (Fin 8 → Nat) → Fin 8 → Nat)
    (cfg : CiNetConfig) (st : MsgState) (gps : GpsDict)
    (device_status : Option StatusDict) : List Nat × MsgState :=
  let r := build crc16 enc cfg st.buffer st.sequence gps device_status
  (extract r.1 0 MSG_LENGTH, { buffer := r.1, sequence := r.2 })

/-- Repeatedly calling `build` on the same instance with fixed inputs. -/
def buildStep (crc16 : List Nat → Nat) (enc : (Fin 8 → Nat) → Fin 8 → Nat)
    (cfg : CiNetConfig) (gps : GpsDict) (device_status : Option StatusDict)
    (st : MsgState) : MsgState :=
  (buildCall crc16 enc cfg st gps device_status).2

/-- The message returned by the `n`-th of a series of `build` calls with
fixed inputs on a fresh instance (`n ≥ 1`). -/
def messageAt (crc16 : List Nat → Nat) (enc : (Fin 8 → Nat) → Fin 8 → Nat)
    (cfg : CiNetConfig) (gps : GpsDict) (device_status : Option StatusDict)
    (n : Nat) : List Nat :=
  extract ((buildStep crc16 enc cfg gps device_status)^[n] initState).buffer 0 MSG_LENGTH

/-! ## Concrete instances for the engines missing from the excerpt -/

/-- Modelled from the spec: `protocol.crc.CRC16.calculate` is not in the
excerpted source (spec §9 lists the exact bit algorithm as an open
question); §4.1 requires a pure, deterministic, order-sensitive 16-bit
running checksum over a byte range.  This concrete instance satisfies
that contract and instantiates witnesses; the general theorems are stated
for an arbitrary checksum function. -/
def crcModel (bytes : List Nat) : Nat :=
  bytes.foldl (fun acc b => (acc * 31 + b) % 65536) 65535

/-- Modelled from the spec: `protocol.blowfish.derive_key` is not in the
excerpted source; §4.2 requires a deterministic map from a passphrase to
a 32-byte key. -/
def deriveKeyModel (passphrase : List Nat) : List Nat :=
  (List.range 32).map fun i => passphrase.foldl (fun a c => (a * 33 + c) % 256) i

/-- Modelled from the spec: the Blowfish engine is not in the excerpted
source; §4.3 requires a keyed permutation applied independently to each
8-byte block (electronic-codebook mode), encryption and decryption being
mutually inverse.  This instance xors each block byte with a key byte —
a valid (if cryptographically weak) instance of that contract, adequate
for instantiating witnesses. -/
def cipherModelE (key : List Nat) (block : Fin 8 → Nat) (k : Fin 8) : Nat :=
  block k ^^^ key.getD k.1 0


/-! ## Sample instances (mirroring `tests/test_protocol.py` MockConfig)

Used to instantiate witnesses and counterexamples. -/

/-- The test-suite configuration: passphrase `fredfred`, key 06.EA.83.A3,
serial `0001576627`, client `Python Simulator`, source type `Millitag`,
firmware 2.7.4 (all strings as character codes). -/
def sampleConfig : CiNetConfig :=
  { passphrase := [102, 114, 101, 100, 102, 114, 101, 100]
    cinet_key := 0x06EA83A3
    serial_number := [48, 48, 48, 49, 53, 55, 54, 54, 50, 55]
    client_name := [80, 121, 116, 104, 111, 110, 32, 83, 105, 109, 117, 108,
      97, 116, 111, 114]
    source_type := [77, 105, 108, 108, 105, 116, 97, 103]
    fw_version_major := some 2
    fw_version_minor := some 7
    fw_version_patch := some 4 }

/-- A GPS fix with the timestamp of the test suite. -/
def sampleGps : GpsDict :=
  { valid := some true
    timestamp := some (2024, 12, 26, 4, 37, 0) }

/-- The modelled cipher keyed as in `CiNetMessage.__init__`. -/
def sampleEnc : (Fin 8 → Nat) → Fin 8 → Nat :=
  cipherModelE (deriveKeyModel sampleConfig.passphrase)

end Proto

namespace Main

/-! ## `config.py`: enumerations and constants the controller reads -/

namespace State

def STARTUP : Nat := 0
def INIT : Nat := 1
def GPS_ACQUIRE : Nat := 2
def NETWORK_CONNECT : Nat := 3
def READY : Nat := 4
def TRANSMIT : Nat := 5
def SLEEP : Nat := 6
def STANDBY : Nat := 7
def HIBERNATE : Nat := 8
def LOG_UPLOAD : Nat := 9
def ERROR : Nat := 10

end State

namespace Timing

def GPS_UPDATE_MS : Nat := 1000
def NETWORK_TIMEOUT_MS : Nat := 10000
def CONNECT_RETRY_MS : Nat := 5000
def MAX_RETRIES : Nat := 3
def COMMAND_POLL_MS : Nat := 60000
def LOG_FLUSH_INTERVAL_MS : Nat := 30000

end Timing

/-- Operating-mode strings: the sources compare the persisted string
against the `OperatingMode` constants and against the raw literals
`"forever_standby"` and `"continuous"`; `other` stands for any further
string value. -/
inductive ModeStr where
  | active
  | standby
  | hibernate
  | logging
  | forever_standby
  | continuous
  | other
deriving DecidableEq

namespace OperatingMode

def ACTIVE : ModeStr := ModeStr.active
def STANDBY : ModeStr := ModeStr.standby
def HIBERNATE : ModeStr := ModeStr.hibernate
def LOGGING : ModeStr := ModeStr.logging

end OperatingMode

namespace AlertType

def LOW_BATTERY : Nat := 0x0001
def MOTION_START : Nat := 0x0002
def MOTION_STOP : Nat := 0x0004
def INPUT_CHANGE : Nat := 0x0008
def TAMPER : Nat := 0x0010
def EXTERNAL_POWER_LOST : Nat := 0x0020
def EXTERNAL_POWER_RESTORED : Nat := 0x0040
def GEOFENCE_ENTER : Nat := 0x0080
def GEOFENCE_EXIT : Nat := 0x0100
def CONNECTION_LOST : Nat := 0x0200
def CONNECTION_RESTORED : Nat := 0x0400

end AlertType

/-! ## `utils/power_manager.py`

The ADC reading is the only hardware input; voltages are exact rationals. -/

namespace PowerManager

def ADC_VREF : Rat := 33 / 10
def VOLTAGE_DIVIDER_RATIO : Rat := 2
def BATTERY_FULL : Rat := 42 / 10
def BATTERY_EMPTY : Rat := 3
def BATTERY_LOW_THRESHOLD : Rat := 34 / 10

/-- `read_battery_voltage`: a 16-bit ADC reading converted to volts. -/
def read_battery_voltage (raw : Nat) : Rat :=
  (raw : Rat) / 65535 * ADC_VREF * VOLTAGE_DIVIDER_RATIO

/-- `get_battery_percentage`: linear interpolation between the empty and
full voltages, clamped. -/
def get_battery_percentage (raw : Nat) : Int :=
  let voltage := read_battery_voltage raw
  if voltage ≥ BATTERY_FULL then 100
  else if voltage ≤ BATTERY_EMPTY then 0
  else Proto.pyTrunc ((voltage - BATTERY_EMPTY) / (BATTERY_FULL - BATTERY_EMPTY) * 100)

/-- `is_battery_critical`: true when the battery voltage is at or below
the empty threshold. -/
def is_battery_critical (raw : Nat) : Bool :=
  read_battery_voltage raw ≤ BATTERY_EMPTY

/-- `is_battery_low`: true strictly below the low threshold. -/
def is_battery_low (raw : Nat) : Bool :=
  read_battery_voltage raw < BATTERY_LOW_THRESHOLD

end PowerManager

/-! ## `main.py`: the `PicoBeacon` controller -/

/-- Exceptions the embedded controller can raise. -/
inductive PyErr where
  | typeError
deriving DecidableEq

/-- Values held in `self.error_message`. -/
inductive ErrMsg where
  | batteryCritical
  | loopError (e : PyErr)
deriving DecidableEq

/-- The `DeviceStatus` container of `protocol/cinet_message.py`, with its
constructor defaults. -/
structure DeviceStatus where
  battery : Int := 100
  temperature : Int := 20
  rssi : Int := 0
  motion : Nat := 0
  status_flags : Nat := 0
  lac : Nat := 0
  cell_id : Nat := 0
  act : Nat := 7
  beacon_mode : Nat := 0
  motion_sensitivity : Nat := 1
  wake_trigger : Nat := 0
  output_state : Nat := 0
  geozone : Nat := 0
  input_state : Nat := 0
  alerts : Nat := 0
deriving DecidableEq

/-- `DeviceStatus.to_dict`: every key is present. -/
def DeviceStatus.to_dict (d : DeviceStatus) : Proto.StatusDict :=
  { battery := some d.battery
    temperature := some d.temperature
    rssi := some d.rssi
    motion := some d.motion
    status_flags := some d.status_flags
    lac := some d.lac
    cell_id := some d.cell_id
    act := some d.act
    beacon_mode := some d.beacon_mode
    motion_sensitivity := some d.motion_sensitivity
    wake_trigger := some d.wake_trigger
    output_state := some d.output_state
    geozone := some d.geozone
    input_state := some d.input_state
    alerts := some d.alerts }

/-- The configuration keys the controller reads (`ConfigManager.get` with
the call-site defaults); a `none` field models a deleted key.  Structure
defaults are the `DEFAULT_CONFIG` values. -/
structure BeaconConfig where
  operating_mode : Option ModeStr := some ModeStr.active
  gprs_rate_moving_sec : Option Nat := some 10
  gprs_rate_stopped_sec : Option Nat := some 60
  gprs_rate_standby_sec : Option Nat := some 3600
  motion_timeout_sec : Option Nat := some 120
  standby_wake_on_motion : Option Bool := some true
  standby_check_interval_sec : Option Nat := some 60
  hibernate_wake_interval_hr : Option Nat := some 24
  deep_sleep_enabled : Option Bool := some false
deriving DecidableEq

/-- Mutable state of the `PicoBeacon` object (the fields the embedded
methods read or write). -/
structure Beacon where
  startup_time : Nat := 0
  config : BeaconConfig := {}
  rf_enabled : Bool := true
  state : Nat := State.STARTUP
  last_transmit_time : Nat := 0
  last_log_time : Nat := 0
  retry_count : Nat := 0
  error_message : Option ErrMsg := none
  is_moving : Bool := false
  motion_woke_us : Bool := false
  motion_timeout_start : Nat := 0
  deployment_mode : Bool := true
  continuous_mode : Bool := false
  reboot_requested : Bool := false
  log_upload_requested : Bool := false
  pending_alerts : List (Nat × Nat) := []
  device_status : DeviceStatus := {}
  has_io : Bool := true
  proto : Proto.MsgState := Proto.initState
  proto_cfg : Proto.CiNetConfig :=
    { passphrase := [], cinet_key := 0, serial_number := [],
      client_name := [], source_type := [] }

/-- Deployment mode duration: 20 minutes in milliseconds. -/
def DEPLOYMENT_DURATION_MS : Nat := 20 * 60 * 1000

/-- Readings from the external collaborators (GNSS, network, sensors,
ADC, command handlers) during one loop tick. -/
structure Env where
  now : Nat := 0
  battery_raw : Nat := 0
  net_connected : Bool := false
  connect_ok : Bool := false
  send_ok : Bool := false
  motion_detected : Bool := false
  gps_valid : Bool := false
  gps_position : Proto.GpsDict := {}
  cell_rssi : Int := 0
  cell_lac : Nat := 0
  cell_cell_id : Nat := 0
  input_state : Bool := false
  output_state : Bool := false
  status_requested : Bool := false
  locate_requested : Bool := false

/-- `PicoBeacon._update_device_status`. -/
def update_device_status (b : Beacon) (env : Env) : Beacon :=
  let d := b.device_status
  let d := { d with battery := PowerManager.get_battery_percentage env.battery_raw }
  let d := { d with rssi := env.cell_rssi, lac := env.cell_lac,
                    cell_id := env.cell_cell_id }
  let d := { d with motion := if b.is_moving then 1 else 0 }
  let d := if b.has_io then
      { d with input_state := if env.input_state then 1 else 0,
               output_state := if env.output_state then 1 else 0 }
    else d
  { b with device_status := d }

/-- `PicoBeacon._update_motion_state`: a sensor event (re)arms the motion
flag and its timeout; with no event for longer than the configured
timeout the flag clears. -/
def update_motion_state (b : Beacon) (env : Env) : Beacon :=
  let b :=
    if env.motion_detected then
      { b with is_moving := true, motion_timeout_start := env.now }
    else b
  if b.is_moving &&
      decide ((b.config.motion_timeout_sec.getD 120) * 1000 <
        env.now - b.motion_timeout_start) then
    { b with is_moving := false }
  else b

/-- `PicoBeacon._check_deployment_mode`: deployment mode ends for good
20 minutes after boot. -/
def check_deployment_mode (b : Beacon) (env : Env) : Beacon :=
  if ¬ b.deployment_mode then b
  else if DEPLOYMENT_DURATION_MS < env.now - b.startup_time then
    { b with deployment_mode := false }
  else b

/-- `PicoBeacon._get_report_interval_ms`. -/
def get_report_interval_ms (b : Beacon) : Nat :=
  let mode := b.config.operating_mode.getD OperatingMode.ACTIVE
  if b.deployment_mode then (b.config.gprs_rate_moving_sec.getD 10) * 1000
  else if b.continuous_mode then (b.config.gprs_rate_moving_sec.getD 10) * 1000
  else if mode = OperatingMode.STANDBY ∨ mode = ModeStr.forever_standby then
    (b.config.gprs_rate_standby_sec.getD 3600) * 1000
  else if b.is_moving then (b.config.gprs_rate_moving_sec.getD 10) * 1000
  else (b.config.gprs_rate_stopped_sec.getD 60) * 1000

/-- `PicoBeacon._state_startup`. -/
def state_startup (b : Beacon) (env : Env) : Beacon :=
  if PowerManager.is_battery_critical env.battery_raw then
    { b with state := State.ERROR, error_message := some ErrMsg.batteryCritical }
  else { b with state := State.INIT }

/-- `PicoBeacon._state_init` (peripheral power-up is external). -/
def state_init (b : Beacon) : Beacon :=
  { b with state := State.GPS_ACQUIRE }

/-- `PicoBeacon._state_gps_acquire`. -/
def state_gps_acquire (b : Beacon) (env : Env) : Beacon :=
  if env.gps_valid then
    let mode := b.config.operating_mode.getD OperatingMode.ACTIVE
    if mode = OperatingMode.LOGGING then { b with state := State.READY }
    else { b with state := State.NETWORK_CONNECT }
  else b

/-- `PicoBeacon._state_network_connect`. -/
def state_network_connect (b : Beacon) (env : Env) : Beacon :=
  if ¬ b.rf_enabled then { b with state := State.READY }
  else if env.net_connected then { b with state := State.READY }
  else if env.connect_ok then { b with state := State.READY }
  else
    let b := { b with retry_count := b.retry_count + 1 }
    if b.retry_count ≥ Timing.MAX_RETRIES then
      { b with state := State.READY }
    else b

/-- `PicoBeacon._state_ready`. -/
def state_ready (b : Beacon) (env : Env) : Beacon :=
  if b.log_upload_requested then
    { b with log_upload_requested := false, state := State.LOG_UPLOAD }
  else if env.status_requested then { b with state := State.TRANSMIT }
  else if env.locate_requested then { b with state := State.TRANSMIT }
  else if b.pending_alerts ≠ [] then { b with state := State.TRANSMIT }
  else
    let report_interval := get_report_interval_ms b
    let elapsed := env.now - b.last_transmit_time
    if elapsed ≥ report_interval ∨ b.last_transmit_time = 0 then
      if b.rf_enabled then { b with state := State.TRANSMIT }
      else { b with last_transmit_time := env.now }
    else if b.rf_enabled && ! env.net_connected then
      { b with state := State.NETWORK_CONNECT }
    else b

/-- Number of positional arguments (after `self`) accepted by
`CiNetMessage.build(self, gps_data, device_status=None)`. -/
def buildMaxPositional : Nat := 2

/-- Number of positional arguments the controller passes at the call site
`self.protocol.build(gps_data, self.device_status.to_dict(), alert_mask)`. -/
def buildCallArgCount : Nat := 3

/-- `PicoBeacon._state_transmit`.  Mutations performed before an
exception escape it, so the step returns the mutated state together with
the raised exception, if any. -/
def state_transmit (crc16 : List Nat → Nat) (enc : (Fin 8 → Nat) → Fin 8 → Nat)
    (b : Beacon) (env : Env) : Beacon × Option PyErr :=
  if ¬ b.rf_enabled then
    ({ b with last_transmit_time := env.now, state := State.READY }, none)
  else
    let b := update_device_status b env
    let gps_data := env.gps_position
    let alert_mask := b.pending_alerts.foldl (fun m a => m ||| a.1) 0
    let b := { b with pending_alerts := [] }
    -- Python binds `buildCallArgCount` positional arguments against a
    -- signature that accepts at most `buildMaxPositional`; the call
    -- raises TypeError before the callee body runs.
    if buildMaxPositional < buildCallArgCount then
      let _ := alert_mask
      (b, some PyErr.typeError)
    else
      -- the send path of lines 625-643, unreachable under the current
      -- call-site arity
      let r := Proto.buildCall crc16 enc b.proto_cfg b.proto gps_data
        (some b.device_status.to_dict)
      let b := { b with proto := r.2 }
      if env.send_ok then
        ({ b with last_transmit_time := env.now, retry_count := 0,
                  state := State.READY }, none)
      else
        let b := { b with retry_count := b.retry_count + 1 }
        if b.retry_count ≥ Timing.MAX_RETRIES then
          ({ b with state := State.NETWORK_CONNECT, retry_count := 0 }, none)
        else (b, none)

/-- `PicoBeacon._state_sleep` (the sleep itself is a cooperative
suspension; afterwards the state machine re-acquires a fix). -/
def state_sleep (b : Beacon) : Beacon :=
  { b with state := State.GPS_ACQUIRE }

/-- `PicoBeacon._state_standby`. -/
def state_standby (b : Beacon) (env : Env) : Beacon :=
  let mode := b.config.operating_mode.getD OperatingMode.STANDBY
  if mode = ModeStr.forever_standby then b
  else
    let wake_on_motion := b.config.standby_wake_on_motion.getD true
    if wake_on_motion && b.motion_woke_us then
      { b with motion_woke_us := false,
               config := { b.config with operating_mode := some OperatingMode.ACTIVE },
               state := State.GPS_ACQUIRE }
    else
      let report_interval := get_report_interval_ms b
      if env.now - b.last_transmit_time ≥ report_interval then
        { b with state := State.GPS_ACQUIRE }
      else b

/-- `PicoBeacon._state_hibernate`. -/
def state_hibernate (b : Beacon) : Beacon :=
  { b with state := State.GPS_ACQUIRE }

/-- `PicoBeacon._state_log_upload` (the upload itself is a stub; both
paths return to Ready). -/
def state_log_upload (b : Beacon) : Beacon :=
  { b with state := State.READY }

/-- `PicoBeacon._state_error`: after the fixed delay, recover to Init
unless the battery is still critical. -/
def state_error (b : Beacon) (env : Env) : Beacon :=
  if ¬ PowerManager.is_battery_critical env.battery_raw then
    { b with retry_count := 0, error_message := none, state := State.INIT }
  else b

/-- `PicoBeacon._run_state_machine`. -/
def run_state_machine (crc16 : List Nat → Nat) (enc : (Fin 8 → Nat) → Fin 8 → Nat)
    (b : Beacon) (env : Env) : Beacon × Option PyErr :=
  if b.state = State.STARTUP then (state_startup b env, none)
  else if b.state = State.INIT then (state_init b, none)
  else if b.state = State.GPS_ACQUIRE then (state_gps_acquire b env, none)
  else if b.state = State.NETWORK_CONNECT then (state_network_connect b env, none)
  else if b.state = State.READY then (state_ready b env, none)
  else if b.state = State.TRANSMIT then state_transmit crc16 enc b env
  else if b.state = State.SLEEP then (state_sleep b, none)
  else if b.state = State.STANDBY then (state_standby b env, none)
  else if b.state = State.HIBERNATE then (state_hibernate b, none)
  else if b.state = State.LOG_UPLOAD then (state_log_upload b, none)
  else if b.state = State.ERROR then (state_error b env, none)
  else (b, none)

/-- One iteration of the `run()` loop: motion/deployment upkeep, one
state-machine step, and the catch-all boundary that maps any raised
exception to the Error state.  A pending reboot request restarts the
device (`machine.reset`), which is outside this model; GNSS, I/O and
data-logger upkeep touch only external collaborators. -/
def run_tick (crc16 : List Nat → Nat) (enc : (Fin 8 → Nat) → Fin 8 → Nat)
    (b : Beacon) (env : Env) : Beacon :=
  if b.reboot_requested then b
  else
    let b := update_motion_state b env
    let b := check_deployment_mode b env
    let r := run_state_machine crc16 enc b env
    match r.2 with
    | none => r.1
    | some e => { r.1 with state := State.ERROR,
                           error_message := some (ErrMsg.loopError e) }

/-- `n` iterations of the main loop under an environment trace. -/
def run_ticks (crc16 : List Nat → Nat) (enc : (Fin 8 → Nat) → Fin 8 → Nat)
    (b : Beacon) (envs : Nat → Env) : Nat → Beacon
  | 0 => b
  | n + 1 => run_tick crc16 enc (run_ticks crc16 enc b envs n) (envs n)

end Main

/-!
# Theorems

First the arithmetic readings of the bit operations and the buffer
lemmas, then the claims.
-/

namespace Bits

/-- Arithmetic reading of the bit mask `x & 31`. -/
theorem and31 (x : Nat) : x &&& 31 = x % 32 := by
  have h := Nat.and_pow_two_sub_one_eq_mod x 5
  norm_num at h
  exact h

/-- Arithmetic reading of the bit mask `x & 7`. -/
theorem and7 (x : Nat) : x &&& 7 = x % 8 := by
  have h := Nat.and_pow_two_sub_one_eq_mod x 3
  norm_num at h
  exact h

/-- Arithmetic reading of the bit mask `x & 1`. -/
theorem and1 (x : Nat) : x &&& 1 = x % 2 := by
  simp

/-- Arithmetic reading of the bit mask `x & 0x7F`. -/
theorem and127 (x : Nat) : x &&& 127 = x % 128 := by
  have h := Nat.and_pow_two_sub_one_eq_mod x 7
  norm_num at h
  exact h

/-- Arithmetic reading of the bit mask `x & 0xFF`. -/
theorem and255 (x : Nat) : x &&& 255 = x % 256 := by
  have h := Nat.and_pow_two_sub_one_eq_mod x 8
  norm_num at h
  exact h

/-- Arithmetic reading of the bit mask `x & 0xFFFF`. -/
theorem and65535 (x : Nat) : x &&& 65535 = x % 65536 := by
  have h := Nat.and_pow_two_sub_one_eq_mod x 16
  norm_num at h
  exact h

/-- A shifted value or-ed with a small value is their sum: the two bit
ranges are disjoint. -/
theorem shl_lor (a b k : Nat) (hb : b < 2 ^ k) :
    (a <<< k) ||| b = a * 2 ^ k + b := by
  rw [Nat.shiftLeft_eq, mul_comm]
  rw [← Nat.mul_add_lt_is_or hb a]

end Bits

namespace Proto

theorem extract_length (buf : Nat → Nat) (off len : Nat) :
    (extract buf off len).length = len := by
  simp [extract]

theorem extract_getD (buf : Nat → Nat) (off len k : Nat) (hk : k < len) :
    (extract buf off len).getD k 0 = buf (off + k) := by
  simp [extract, List.getD, List.getElem?_map, List.getElem?_range, hk]

theorem extract_congr (f g : Nat → Nat) (off len : Nat)
    (h : ∀ j, off ≤ j → j < off + len → f j = g j) :
    extract f off len = extract g off len := by
  simp only [extract]
  refine List.map_congr_left fun k hk => ?_
  rw [List.mem_range] at hk
  exact h (off + k) (Nat.le_add_right off k) (by omega)

theorem source_type_bytes_length (c : CiNetConfig) :
    (get_source_type_bytes c).length = 12 := by
  simp [get_source_type_bytes]

theorem serial_bytes_length (c : CiNetConfig) :
    (get_serial_bytes c).length = 24 := by
  simp [get_serial_bytes]

theorem client_name_bytes_length (c : CiNetConfig) :
    (get_client_name_bytes c).length = 20 := by
  simp [get_client_name_bytes]

theorem operator_bytes_length : get_operator_bytes.length = 8 := rfl

theorem encode_datong_length (a b c d e f : Nat) :
    (encode_datong_timestamp a b c d e f).length = 5 := rfl

/-- A read whose index is touched by the log neither depends on the base
buffer nor on anything appended behind the covering entries. -/
theorem readW_append_covered (ws r1 r2 : List Wr) (b1 b2 : Nat → Nat) (j : Nat)
    (h : coversB ws j = true) :
    readW (ws ++ r1) b1 j = readW (ws ++ r2) b2 j := by
  induction ws with
  | nil => simp [coversB] at h
  | cons w ws ih =>
    simp only [coversB, List.any_cons, Bool.or_eq_true, Bool.and_eq_true,
      decide_eq_true_eq] at h
    rcases w with ⟨i, v⟩ | ⟨i, vs⟩ <;> simp only [List.cons_append, readW]
    · by_cases hj : j = i
      · simp [hj]
      · simp only [if_neg hj]
        apply ih
        rcases h with h | h
        · exact absurd h (by simp [wrLo, wrHi]; omega)
        · simpa [coversB] using h
    · by_cases hj : i ≤ j ∧ j < i + vs.length
      · simp [hj]
      · simp only [if_neg hj]
        apply ih
        rcases h with h | h
        · exact absurd h (by simp [wrLo, wrHi]; omega)
        · simpa [coversB] using h

/-- A read whose index no entry of the leading log touches falls through
to the rest. -/
theorem readW_append_skip (ws rest : List Wr) (b : Nat → Nat) (j : Nat)
    (h : coversB ws j = false) :
    readW (ws ++ rest) b j = readW rest b j := by
  induction ws with
  | nil => simp
  | cons w ws ih =>
    simp only [coversB, List.any_cons, Bool.or_eq_false_iff,
      Bool.and_eq_false_iff] at h
    rcases w with ⟨i, v⟩ | ⟨i, vs⟩ <;> simp only [List.cons_append, readW]
    · rw [if_neg (show ¬ j = i by
        have := h.1
        simp only [decide_eq_false_iff_not, wrLo, wrHi] at this
        omega)]
      exact ih (by simpa [coversB] using h.2)
    · rw [if_neg (show ¬ (i ≤ j ∧ j < i + vs.length) by
        have := h.1
        simp only [decide_eq_false_iff_not, wrLo, wrHi] at this
        omega)]
      exact ih (by simpa [coversB] using h.2)

theorem readW_skip (ws : List Wr) (b : Nat → Nat) (j : Nat)
    (h : coversB ws j = false) :
    readW ws b j = b j := by
  have h2 := readW_append_skip ws [] b j h
  simpa [readW] using h2

/-- The payload writes touch every byte of the region 51-146. -/
theorem payload_covers (cfg : CiNetConfig) (gps : GpsDict) (ds : Option StatusDict)
    (ts : List Nat) (hts : ts.length = 5) (j : Nat) (h1 : 51 ≤ j) (h2 : j < 147) :
    coversB (build_payload cfg gps ds ts) j = true := by
  rcases hh : gps.heading.isSome with _ | _
  all_goals
    simp only [build_payload, pack2, pack4, pack_signed4, hh, if_true, if_false,
      Bool.false_eq_true, coversB, List.any_append, List.any_cons, List.any_nil,
      wrLo, wrHi, Bool.or_eq_true, Bool.and_eq_true, decide_eq_true_eq, hts,
      client_name_bytes_length, operator_bytes_length]
  all_goals omega

/-- The payload writes touch nothing below index 51. -/
theorem payload_not_covers (cfg : CiNetConfig) (gps : GpsDict) (ds : Option StatusDict)
    (ts : List Nat) (hts : ts.length = 5) (j : Nat) (h2 : j < 51) :
    coversB (build_payload cfg gps ds ts) j = false := by
  rcases hh : gps.heading.isSome with _ | _
  all_goals
    simp only [build_payload, pack2, pack4, pack_signed4, hh, if_true, if_false,
      Bool.false_eq_true, coversB, List.any_append, List.any_cons, List.any_nil,
      wrLo, wrHi, Bool.or_eq_false_iff, Bool.and_eq_false_imp, decide_eq_true_eq,
      decide_eq_false_iff_not, hts, client_name_bytes_length,
      operator_bytes_length, and_true, true_and]
  all_goals omega

/-- The header writes touch every byte of the region 0-50. -/
theorem header_covers (cfg : CiNetConfig) (seq : Nat) (ts : List Nat)
    (hts : ts.length = 5) (j : Nat) (h2 : j < 51) :
    coversB (build_header cfg seq ts) j = true := by
  simp only [build_header, pack2, pack4, coversB, List.any_append, List.any_cons,
    List.any_nil, wrLo, wrHi, Bool.or_eq_true, Bool.and_eq_true,
    decide_eq_true_eq, hts, source_type_bytes_length, serial_bytes_length]
  omega




theorem build_ts_length (g : GpsDict) : (build_ts g).length = 5 := rfl

theorem readW_nil (base : Nat → Nat) (j : Nat) : readW [] base j = base j := rfl

theorem readW_cons_one_ne (i v : Nat) (ws : List Wr) (base : Nat → Nat) (j : Nat)
    (h : j ≠ i) : readW (Wr.one i v :: ws) base j = readW ws base j := by
  rw [readW, if_neg h]

theorem readW_cons_one_eq (i v : Nat) (ws : List Wr) (base : Nat → Nat) :
    readW (Wr.one i v :: ws) base i = v := by
  rw [readW, if_pos rfl]

theorem readW_covered_indep (ws : List Wr) (b1 b2 : Nat → Nat) (j : Nat)
    (h : coversB ws j = true) :
    readW ws b1 j = readW ws b2 j := by
  have h2 := readW_append_covered ws [] [] b1 b2 j h
  simpa using h2

theorem build_header_decomp (cfg : CiNetConfig) (s : Nat) (ts : List Nat) :
    build_header cfg s ts =
      build_header_front cfg ts ++ (Wr.one 4 s :: build_header_back) := by
  simp [build_header, build_header_front, build_header_back]

theorem front_covers (cfg : CiNetConfig) (ts : List Nat) (hts : ts.length = 5)
    (j : Nat) (h1 : 5 ≤ j) (h2 : j < 51) :
    coversB (build_header_front cfg ts) j = true := by
  simp only [build_header_front, pack4, coversB, List.any_append, List.any_cons,
    List.any_nil, wrLo, wrHi, Bool.or_eq_true, Bool.and_eq_true,
    decide_eq_true_eq, hts, source_type_bytes_length, serial_bytes_length]
  omega

theorem front_not_covers (cfg : CiNetConfig) (ts : List Nat) (hts : ts.length = 5)
    (j : Nat) (h : j < 5) :
    coversB (build_header_front cfg ts) j = false := by
  simp only [build_header_front, pack4, coversB, List.any_append, List.any_cons,
    List.any_nil, wrLo, wrHi, Bool.or_eq_false_iff, Bool.and_eq_false_imp,
    decide_eq_true_eq, decide_eq_false_iff_not, hts, source_type_bytes_length,
    serial_bytes_length, and_true, true_and]
  omega

theorem back_covers (j : Nat) (h : j < 4) :
    coversB build_header_back j = true := by
  simp only [build_header_back, pack2, coversB, List.any_append, List.any_cons,
    List.any_nil, wrLo, wrHi, Bool.or_eq_true, Bool.and_eq_true,
    decide_eq_true_eq]
  omega

theorem header_indep (cfg : CiNetConfig) (ts : List Nat) (hts : ts.length = 5)
    (b1 b2 : Nat → Nat) (s1 s2 j : Nat) (h2 : j < 51) (h4 : j ≠ 4) :
    readW (build_header cfg s1 ts) b1 j = readW (build_header cfg s2 ts) b2 j := by
  rw [build_header_decomp, build_header_decomp]
  by_cases h5 : 5 ≤ j
  · exact readW_append_covered _ _ _ _ _ _ (front_covers cfg ts hts j h5 h2)
  · rw [readW_append_skip _ _ _ _ (front_not_covers cfg ts hts j (by omega)),
      readW_append_skip _ _ _ _ (front_not_covers cfg ts hts j (by omega)),
      readW_cons_one_ne _ _ _ _ _ h4, readW_cons_one_ne _ _ _ _ _ h4]
    exact readW_covered_indep _ _ _ _ (back_covers j (by omega))

theorem header_byte4 (cfg : CiNetConfig) (ts : List Nat) (hts : ts.length = 5)
    (b : Nat → Nat) (s : Nat) :
    readW (build_header cfg s ts) b 4 = s := by
  rw [build_header_decomp,
    readW_append_skip _ _ _ _ (front_not_covers cfg ts hts 4 (by omega)),
    readW_cons_one_eq]



theorem plain_indep (cfg : CiNetConfig) (g : GpsDict) (d : Option StatusDict)
    (b1 b2 : Nat → Nat) (s1 s2 j : Nat) (h1 : 51 ≤ j) (h2 : j < 147) :
    plain_message cfg s1 g d b1 j = plain_message cfg s2 g d b2 j := by
  unfold plain_message
  exact readW_append_covered _ _ _ _ _ _
    (payload_covers cfg g d _ (build_ts_length g) j h1 h2)

theorem plain_low (cfg : CiNetConfig) (s : Nat) (g : GpsDict) (d : Option StatusDict)
    (b : Nat → Nat) (j : Nat) (h : j < 51) :
    plain_message cfg s g d b j = readW (build_header cfg s (build_ts g)) b j := by
  unfold plain_message
  exact readW_append_skip _ _ _ _
    (payload_not_covers cfg g d _ (build_ts_length g) j h)

theorem checksummed_low (crc16 : List Nat → Nat) (cfg : CiNetConfig) (s : Nat)
    (g : GpsDict) (d : Option StatusDict) (b : Nat → Nat) (j : Nat)
    (h53 : j ≠ 53) (h54 : j ≠ 54) :
    checksummed_message crc16 cfg s g d b j = plain_message cfg s g d b j := by
  unfold checksummed_message
  rw [readW_cons_one_ne _ _ _ _ _ h54, readW_cons_one_ne _ _ _ _ _ h53, readW_nil]

theorem checksummed_byte53 (crc16 : List Nat → Nat) (cfg : CiNetConfig) (s : Nat)
    (g : GpsDict) (d : Option StatusDict) (b : Nat → Nat) :
    checksummed_message crc16 cfg s g d b 53 =
      pyNotByte (crc16 (extract (plain_message cfg s g d b) 55 92)) := by
  unfold checksummed_message
  rw [readW_cons_one_ne _ _ _ _ _ (by omega), readW_cons_one_eq]

theorem checksummed_byte54 (crc16 : List Nat → Nat) (cfg : CiNetConfig) (s : Nat)
    (g : GpsDict) (d : Option StatusDict) (b : Nat → Nat) :
    checksummed_message crc16 cfg s g d b 54 =
      pyNotByte ((crc16 (extract (plain_message cfg s g d b) 55 92)) >>> 8) := by
  unfold checksummed_message
  rw [readW_cons_one_eq]

theorem checksummed_indep (crc16 : List Nat → Nat) (cfg : CiNetConfig)
    (g : GpsDict) (d : Option StatusDict) (b1 b2 : Nat → Nat) (s1 s2 j : Nat)
    (h1 : 51 ≤ j) (h2 : j < 147) :
    checksummed_message crc16 cfg s1 g d b1 j =
      checksummed_message crc16 cfg s2 g d b2 j := by
  have he : extract (plain_message cfg s1 g d b1) 55 92 =
      extract (plain_message cfg s2 g d b2) 55 92 :=
    extract_congr _ _ _ _ fun k hk1 hk2 =>
      plain_indep cfg g d b1 b2 s1 s2 k (by omega) (by omega)
  unfold checksummed_message
  rw [he]
  by_cases h54 : j = 54
  · subst h54
    rw [readW_cons_one_eq, readW_cons_one_eq]
  · by_cases h53 : j = 53
    · subst h53
      rw [readW_cons_one_ne _ _ _ _ _ h54, readW_cons_one_ne _ _ _ _ _ h54,
        readW_cons_one_eq, readW_cons_one_eq]
    · rw [readW_cons_one_ne _ _ _ _ _ h54, readW_cons_one_ne _ _ _ _ _ h53,
        readW_cons_one_ne _ _ _ _ _ h54, readW_cons_one_ne _ _ _ _ _ h53,
        readW_nil, readW_nil]
      exact plain_indep cfg g d b1 b2 s1 s2 j h1 h2

theorem encrypted_apply (crc16 : List Nat → Nat) (enc : (Fin 8 → Nat) → Fin 8 → Nat)
    (cfg : CiNetConfig) (s : Nat) (g : GpsDict) (d : Option StatusDict)
    (b : Nat → Nat) (j : Nat) :
    encrypted_message crc16 enc cfg s g d b j =
      if 51 ≤ j ∧ j < 51 + 8 * 12 then
        enc (fun k => checksummed_message crc16 cfg s g d b
            (51 + 8 * ((j - 51) / 8) + k.1))
          ⟨(j - 51) % 8, Nat.mod_lt _ (by norm_num)⟩
      else checksummed_message crc16 cfg s g d b j := rfl

theorem encrypted_low (crc16 : List Nat → Nat) (enc : (Fin 8 → Nat) → Fin 8 → Nat)
    (cfg : CiNetConfig) (s : Nat) (g : GpsDict) (d : Option StatusDict)
    (b : Nat → Nat) (j : Nat) (h : j < 51) :
    encrypted_message crc16 enc cfg s g d b j =
      checksummed_message crc16 cfg s g d b j := by
  rw [encrypted_apply, if_neg (by omega)]

theorem encrypted_indep (crc16 : List Nat → Nat) (enc : (Fin 8 → Nat) → Fin 8 → Nat)
    (cfg : CiNetConfig) (g : GpsDict) (d : Option StatusDict) (b1 b2 : Nat → Nat)
    (s1 s2 j : Nat) (h1 : 51 ≤ j) (h2 : j < 147) :
    encrypted_message crc16 enc cfg s1 g d b1 j =
      encrypted_message crc16 enc cfg s2 g d b2 j := by
  rw [encrypted_apply, encrypted_apply]
  split_ifs with hif
  · refine congrFun (congrArg enc (funext fun k => ?_)) _
    obtain ⟨kv, hk⟩ := k
    exact checksummed_indep crc16 cfg g d b1 b2 s1 s2 _ (by omega) (by omega)
  · exact absurd (show 51 ≤ j ∧ j < 51 + 8 * 12 by omega) hif

theorem build_fst_low (crc16 : List Nat → Nat) (enc : (Fin 8 → Nat) → Fin 8 → Nat)
    (cfg : CiNetConfig) (b : Nat → Nat) (s : Nat) (g : GpsDict)
    (d : Option StatusDict) (j : Nat) (h : j < 147) :
    (build crc16 enc cfg b s g d).1 j =
      encrypted_message crc16 enc cfg ((s + 1) &&& 0xFF) g d b j := by
  simp only [build]
  rw [readW_cons_one_ne _ _ _ _ _ (by omega), readW_cons_one_ne _ _ _ _ _ (by omega),
    readW_nil]

theorem build_snd (crc16 : List Nat → Nat) (enc : (Fin 8 → Nat) → Fin 8 → Nat)
    (cfg : CiNetConfig) (b : Nat → Nat) (s : Nat) (g : GpsDict)
    (d : Option StatusDict) :
    (build crc16 enc cfg b s g d).2 = (s + 1) &&& 0xFF := rfl

theorem build_byte147 (crc16 : List Nat → Nat) (enc : (Fin 8 → Nat) → Fin 8 → Nat)
    (cfg : CiNetConfig) (b : Nat → Nat) (s : Nat) (g : GpsDict)
    (d : Option StatusDict) :
    (build crc16 enc cfg b s g d).1 147 =
      pyNotByte (crc16 (extract
        (encrypted_message crc16 enc cfg ((s + 1) &&& 0xFF) g d b) 0 147)) := by
  simp only [build]
  rw [readW_cons_one_ne _ _ _ _ _ (by omega), readW_cons_one_eq]

theorem build_byte148 (crc16 : List Nat → Nat) (enc : (Fin 8 → Nat) → Fin 8 → Nat)
    (cfg : CiNetConfig) (b : Nat → Nat) (s : Nat) (g : GpsDict)
    (d : Option StatusDict) :
    (build crc16 enc cfg b s g d).1 148 =
      pyNotByte ((crc16 (extract
        (encrypted_message crc16 enc cfg ((s + 1) &&& 0xFF) g d b) 0 147)) >>> 8) := by
  simp only [build]
  rw [readW_cons_one_eq]

theorem build_low (crc16 : List Nat → Nat) (enc : (Fin 8 → Nat) → Fin 8 → Nat)
    (cfg : CiNetConfig) (b : Nat → Nat) (s : Nat) (g : GpsDict)
    (d : Option StatusDict) (j : Nat) (h : j < 51) :
    (build crc16 enc cfg b s g d).1 j =
      readW (build_header cfg ((s + 1) &&& 0xFF) (build_ts g)) b j := by
  rw [build_fst_low crc16 enc cfg b s g d j (by omega),
    encrypted_low crc16 enc cfg _ g d b j h,
    checksummed_low crc16 cfg _ g d b j (by omega) (by omega),
    plain_low cfg _ g d b j h]




theorem readW_cons_many_in (i : Nat) (vs : List Nat) (ws : List Wr)
    (base : Nat → Nat) (j : Nat) (h : i ≤ j ∧ j < i + vs.length) :
    readW (Wr.many i vs :: ws) base j = vs.getD (j - i) 0 := by
  rw [readW, if_pos h]

theorem readW_cons_many_out (i : Nat) (vs : List Nat) (ws : List Wr)
    (base : Nat → Nat) (j : Nat) (h : ¬ (i ≤ j ∧ j < i + vs.length)) :
    readW (Wr.many i vs :: ws) base j = readW ws base j := by
  rw [readW, if_neg h]

theorem header_byte0 (cfg : CiNetConfig) (s : Nat) (ts : List Nat) (b : Nat → Nat) :
    readW (build_header cfg s ts) b 0 = START_BYTE := by
  simp only [build_header, pack2, pack4, List.cons_append, List.nil_append]
  rw [readW_cons_many_out _ _ _ _ _ (by omega),
    readW_cons_many_out _ _ _ _ _ (by omega),
    readW_cons_many_out _ _ _ _ _ (by omega),
    readW_cons_one_ne _ _ _ _ _ (by omega),
    readW_cons_one_ne _ _ _ _ _ (by omega),
    readW_cons_one_ne _ _ _ _ _ (by omega),
    readW_cons_one_ne _ _ _ _ _ (by omega),
    readW_cons_one_ne _ _ _ _ _ (by omega),
    readW_cons_one_ne _ _ _ _ _ (by omega),
    readW_cons_one_ne _ _ _ _ _ (by omega),
    readW_cons_one_ne _ _ _ _ _ (by omega),
    readW_cons_one_ne _ _ _ _ _ (by omega),
    readW_cons_one_eq]

theorem header_byte1 (cfg : CiNetConfig) (s : Nat) (ts : List Nat) (b : Nat → Nat) :
    readW (build_header cfg s ts) b 1 = PACKET_TYPE := by
  simp only [build_header, pack2, pack4, List.cons_append, List.nil_append]
  rw [readW_cons_many_out _ _ _ _ _ (by omega),
    readW_cons_many_out _ _ _ _ _ (by omega),
    readW_cons_many_out _ _ _ _ _ (by omega),
    readW_cons_one_ne _ _ _ _ _ (by omega),
    readW_cons_one_ne _ _ _ _ _ (by omega),
    readW_cons_one_ne _ _ _ _ _ (by omega),
    readW_cons_one_ne _ _ _ _ _ (by omega),
    readW_cons_one_ne _ _ _ _ _ (by omega),
    readW_cons_one_ne _ _ _ _ _ (by omega),
    readW_cons_one_ne _ _ _ _ _ (by omega),
    readW_cons_one_ne _ _ _ _ _ (by omega),
    readW_cons_one_eq]

theorem header_byte2 (cfg : CiNetConfig) (s : Nat) (ts : List Nat) (b : Nat → Nat) :
    readW (build_header cfg s ts) b 2 = 0 := by
  simp only [build_header, pack2, pack4, List.cons_append, List.nil_append]
  rw [readW_cons_many_out _ _ _ _ _ (by omega),
    readW_cons_many_out _ _ _ _ _ (by omega),
    readW_cons_many_out _ _ _ _ _ (by omega),
    readW_cons_one_ne _ _ _ _ _ (by omega),
    readW_cons_one_ne _ _ _ _ _ (by omega),
    readW_cons_one_ne _ _ _ _ _ (by omega),
    readW_cons_one_ne _ _ _ _ _ (by omega),
    readW_cons_one_ne _ _ _ _ _ (by omega),
    readW_cons_one_ne _ _ _ _ _ (by omega),
    readW_cons_one_ne _ _ _ _ _ (by omega),
    readW_cons_one_eq]
  decide

theorem header_byte3 (cfg : CiNetConfig) (s : Nat) (ts : List Nat) (b : Nat → Nat) :
    readW (build_header cfg s ts) b 3 = 149 := by
  simp only [build_header, pack2, pack4, List.cons_append, List.nil_append]
  rw [readW_cons_many_out _ _ _ _ _ (by omega),
    readW_cons_many_out _ _ _ _ _ (by omega),
    readW_cons_many_out _ _ _ _ _ (by omega),
    readW_cons_one_ne _ _ _ _ _ (by omega),
    readW_cons_one_ne _ _ _ _ _ (by omega),
    readW_cons_one_ne _ _ _ _ _ (by omega),
    readW_cons_one_ne _ _ _ _ _ (by omega),
    readW_cons_one_ne _ _ _ _ _ (by omega),
    readW_cons_one_ne _ _ _ _ _ (by omega),
    readW_cons_one_eq]
  decide

theorem header_byte9 (cfg : CiNetConfig) (s : Nat) (ts : List Nat) (b : Nat → Nat) :
    readW (build_header cfg s ts) b 9 = CINET_TYPE := by
  simp only [build_header, pack2, pack4, List.cons_append, List.nil_append]
  rw [readW_cons_many_out _ _ _ _ _ (by omega),
    readW_cons_many_out _ _ _ _ _ (by omega),
    readW_cons_many_out _ _ _ _ _ (by
      rw [source_type_bytes_length]
      omega),
    readW_cons_one_eq]

theorem header_src_byte (cfg : CiNetConfig) (s : Nat) (ts : List Nat)
    (b : Nat → Nat) (j : Nat) (h1 : 10 ≤ j) (h2 : j < 22) :
    readW (build_header cfg s ts) b j = (get_source_type_bytes cfg).getD (j - 10) 0 := by
  simp only [build_header, pack2, pack4, List.cons_append, List.nil_append]
  rw [readW_cons_many_out _ _ _ _ _ (by omega),
    readW_cons_many_out _ _ _ _ _ (by
      rw [serial_bytes_length]
      omega),
    readW_cons_many_in _ _ _ _ _ (by
      rw [source_type_bytes_length]
      omega)]



theorem header_same_seq (cfg : CiNetConfig) (ts : List Nat) (hts : ts.length = 5)
    (b1 b2 : Nat → Nat) (s j : Nat) (h2 : j < 51) :
    readW (build_header cfg s ts) b1 j = readW (build_header cfg s ts) b2 j :=
  readW_covered_indep _ _ _ _ (header_covers cfg s ts hts j h2)

theorem build_byte4 (crc16 : List Nat → Nat) (enc : (Fin 8 → Nat) → Fin 8 → Nat)
    (cfg : CiNetConfig) (b : Nat → Nat) (s : Nat) (g : GpsDict)
    (d : Option StatusDict) :
    (build crc16 enc cfg b s g d).1 4 = (s + 1) &&& 0xFF := by
  rw [build_low crc16 enc cfg b s g d 4 (by omega)]
  exact header_byte4 cfg (build_ts g) rfl b _

theorem build_bytes_indep (crc16 : List Nat → Nat) (enc : (Fin 8 → Nat) → Fin 8 → Nat)
    (cfg : CiNetConfig) (b1 b2 : Nat → Nat) (s1 s2 : Nat) (g : GpsDict)
    (d : Option StatusDict) (j : Nat) (hj : j < 147) (h4 : j ≠ 4) :
    (build crc16 enc cfg b1 s1 g d).1 j = (build crc16 enc cfg b2 s2 g d).1 j := by
  rcases Nat.lt_or_ge j 51 with h | h
  · rw [build_low crc16 enc cfg b1 s1 g d j h, build_low crc16 enc cfg b2 s2 g d j h]
    exact header_indep cfg (build_ts g) rfl b1 b2 _ _ j h h4
  · rw [build_fst_low crc16 enc cfg b1 s1 g d j hj,
      build_fst_low crc16 enc cfg b2 s2 g d j hj]
    exact encrypted_indep crc16 enc cfg g d b1 b2 _ _ j h hj

theorem encrypted_same_seq (crc16 : List Nat → Nat) (enc : (Fin 8 → Nat) → Fin 8 → Nat)
    (cfg : CiNetConfig) (b1 b2 : Nat → Nat) (s : Nat) (g : GpsDict)
    (d : Option StatusDict) (j : Nat) (hj : j < 147) :
    encrypted_message crc16 enc cfg s g d b1 j =
      encrypted_message crc16 enc cfg s g d b2 j := by
  rcases Nat.lt_or_ge j 51 with h | h
  · rw [encrypted_low crc16 enc cfg s g d b1 j h,
      encrypted_low crc16 enc cfg s g d b2 j h,
      checksummed_low crc16 cfg s g d b1 j (by omega) (by omega),
      checksummed_low crc16 cfg s g d b2 j (by omega) (by omega),
      plain_low cfg s g d b1 j h, plain_low cfg s g d b2 j h]
    exact header_same_seq cfg (build_ts g) rfl b1 b2 s j h
  · exact encrypted_indep crc16 enc cfg g d b1 b2 s s j h hj

theorem build_msg_same_seq (crc16 : List Nat → Nat) (enc : (Fin 8 → Nat) → Fin 8 → Nat)
    (cfg : CiNetConfig) (b1 b2 : Nat → Nat) (s : Nat) (g : GpsDict)
    (d : Option StatusDict) :
    extract (build crc16 enc cfg b1 s g d).1 0 149 =
      extract (build crc16 enc cfg b2 s g d).1 0 149 := by
  have henc : extract (encrypted_message crc16 enc cfg ((s + 1) &&& 0xFF) g d b1) 0 147 =
      extract (encrypted_message crc16 enc cfg ((s + 1) &&& 0xFF) g d b2) 0 147 :=
    extract_congr _ _ _ _ fun k hk1 hk2 =>
      encrypted_same_seq crc16 enc cfg b1 b2 _ g d k (by omega)
  refine extract_congr _ _ _ _ fun j hj1 hj2 => ?_
  by_cases h147 : j = 147
  · subst h147
    rw [build_byte147, build_byte147, henc]
  · by_cases h148 : j = 148
    · subst h148
      rw [build_byte148, build_byte148, henc]
    · by_cases h4 : j = 4
      · subst h4
        rw [build_byte4, build_byte4]
      · exact build_bytes_indep crc16 enc cfg b1 b2 s s g d j (by omega) h4

theorem buildStep_sequence (crc16 : List Nat → Nat) (enc : (Fin 8 → Nat) → Fin 8 → Nat)
    (cfg : CiNetConfig) (g : GpsDict) (d : Option StatusDict) (n : Nat) :
    ((buildStep crc16 enc cfg g d)^[n] initState).sequence = n % 256 := by
  induction n with
  | zero => simp [initState]
  | succ n ih =>
    rw [Function.iterate_succ_apply']
    show (buildCall crc16 enc cfg _ g d).2.sequence = (n + 1) % 256
    simp only [buildCall, build_snd]
    rw [ih]
    rw [Bits.and255]
    omega

theorem messageAt_succ (crc16 : List Nat → Nat) (enc : (Fin 8 → Nat) → Fin 8 → Nat)
    (cfg : CiNetConfig) (g : GpsDict) (d : Option StatusDict) (n : Nat) :
    messageAt crc16 enc cfg g d (n + 1) =
      extract (build crc16 enc cfg
        ((buildStep crc16 enc cfg g d)^[n] initState).buffer (n % 256) g d).1 0 149 := by
  unfold messageAt
  rw [Function.iterate_succ_apply']
  rw [← buildStep_sequence crc16 enc cfg g d n]
  rfl

theorem messageAt_eq_of_seq (crc16 : List Nat → Nat) (enc : (Fin 8 → Nat) → Fin 8 → Nat)
    (cfg : CiNetConfig) (g : GpsDict) (d : Option StatusDict) (m n : Nat)
    (h : m % 256 = n % 256) :
    messageAt crc16 enc cfg g d (m + 1) = messageAt crc16 enc cfg g d (n + 1) := by
  rw [messageAt_succ, messageAt_succ, h]
  exact build_msg_same_seq crc16 enc cfg _ _ _ g d

theorem buildCall_byte4 (crc16 : List Nat → Nat) (enc : (Fin 8 → Nat) → Fin 8 → Nat)
    (cfg : CiNetConfig) (st : MsgState) (g : GpsDict) (d : Option StatusDict) :
    (buildCall crc16 enc cfg st g d).1.getD 4 0 = (st.sequence + 1) &&& 0xFF := by
  show (extract (build crc16 enc cfg st.buffer st.sequence g d).1 0 MSG_LENGTH).getD 4 0 = _
  rw [extract_getD _ _ _ _ (by decide)]
  exact build_byte4 crc16 enc cfg st.buffer st.sequence g d

theorem buildCall_sequence (crc16 : List Nat → Nat) (enc : (Fin 8 → Nat) → Fin 8 → Nat)
    (cfg : CiNetConfig) (st : MsgState) (g : GpsDict) (d : Option StatusDict) :
    (buildCall crc16 enc cfg st g d).2.sequence = (st.sequence + 1) &&& 0xFF := rfl

theorem messageAt_byte4 (crc16 : List Nat → Nat) (enc : (Fin 8 → Nat) → Fin 8 → Nat)
    (cfg : CiNetConfig) (g : GpsDict) (d : Option StatusDict) (n : Nat) :
    (messageAt crc16 enc cfg g d (n + 1)).getD 4 0 = (n % 256 + 1) &&& 0xFF := by
  rw [messageAt_succ]
  rw [extract_getD _ _ _ _ (by decide)]
  exact build_byte4 crc16 enc cfg _ _ g d




theorem plain_byte145 (cfg : CiNetConfig) (s : Nat) (g : GpsDict)
    (d : Option StatusDict) (b : Nat → Nat) :
    plain_message cfg s g d b 145 = (statusOrEmpty d).alerts.getD 0 &&& 0xFF := by
  unfold plain_message
  simp only [build_payload, pack2, List.cons_append, List.nil_append]
  rw [readW_cons_one_ne _ _ _ _ _ (by omega), readW_cons_one_eq]

theorem plain_byte144 (cfg : CiNetConfig) (s : Nat) (g : GpsDict)
    (d : Option StatusDict) (b : Nat → Nat) :
    plain_message cfg s g d b 144 =
      ((statusOrEmpty d).alerts.getD 0 >>> 8) &&& 0xFF := by
  unfold plain_message
  simp only [build_payload, pack2, List.cons_append, List.nil_append]
  rw [readW_cons_one_ne _ _ _ _ _ (by omega),
    readW_cons_one_ne _ _ _ _ _ (by omega), readW_cons_one_eq]

theorem extract_take (f : Nat → Nat) (n m : Nat) (h : m ≤ n) :
    (extract f 0 n).take m = extract f 0 m := by
  apply List.ext_getElem
  · simp [extract]
    omega
  · intro i h1 h2
    simp [extract, List.getElem_take]

theorem extract_drop_take (f : Nat → Nat) (a b n : Nat) (h : a + b ≤ n) :
    ((extract f 0 n).drop a).take b = extract f a b := by
  apply List.ext_getElem
  · simp [extract]
    omega
  · intro i h1 h2
    simp only [extract, List.getElem_take, List.getElem_drop, List.getElem_map,
      List.getElem_range]
    norm_num

theorem message_take147 (crc16 : List Nat → Nat) (enc : (Fin 8 → Nat) → Fin 8 → Nat)
    (cfg : CiNetConfig) (st : MsgState) (g : GpsDict) (d : Option StatusDict) :
    ((buildCall crc16 enc cfg st g d).1).take 147 =
      extract (encrypted_message crc16 enc cfg ((st.sequence + 1) &&& 0xFF) g d
        st.buffer) 0 147 := by
  show ((extract (build crc16 enc cfg st.buffer st.sequence g d).1 0 MSG_LENGTH).take 147) = _
  rw [show MSG_LENGTH = 149 from rfl, extract_take _ _ _ (by omega)]
  exact extract_congr _ _ _ _ fun j hj1 hj2 =>
    build_fst_low crc16 enc cfg st.buffer st.sequence g d j (by omega)

theorem dropWhile_all_ne (l : List Nat) (h : ∀ c ∈ l, c ≠ 0) :
    l.dropWhile (· = 0) = l := by
  cases l with
  | nil => rfl
  | cons a l =>
    rw [List.dropWhile_cons, if_neg]
    simp only [decide_eq_true_eq]
    exact h a (List.mem_cons_self a l)

theorem rstripNulls_append_replicate (s : List Nat) (k : Nat)
    (h : ∀ c ∈ s, c ≠ 0) :
    rstripNulls (s ++ List.replicate k 0) = s := by
  unfold rstripNulls
  rw [List.reverse_append, List.reverse_replicate]
  have hdrop : List.dropWhile (· = 0) (List.replicate k 0 ++ s.reverse) =
      List.dropWhile (· = 0) s.reverse := by
    induction k with
    | zero => simp
    | succ k ih =>
      rw [List.replicate_succ, List.cons_append, List.dropWhile_cons, if_pos (by simp)]
      exact ih
  rw [hdrop, dropWhile_all_ne _ (fun c hc => h c (List.mem_reverse.mp hc)),
    List.reverse_reverse]

theorem rstrip_source_type (cfg : CiNetConfig) (hlen : cfg.source_type.length ≤ 11)
    (hnz : ∀ c ∈ cfg.source_type, c ≠ 0) :
    rstripNulls (get_source_type_bytes cfg) = cfg.source_type := by
  unfold get_source_type_bytes
  rw [List.take_of_length_le hlen]
  exact rstripNulls_append_replicate _ _ hnz


theorem pyTrunc_zero_mul : pyTrunc ((0 : Rat) * 60000) = 0 := by
  norm_num [pyTrunc]

theorem pyTrunc_zero_speed : pyAnd (pyTrunc ((0 : Rat))) 0xFFFF = 0 := by
  norm_num [pyTrunc, pyAnd]

theorem pyTrunc_hdop_default : pyAnd (pyTrunc (((999 : Rat) / 10) * 100)) 0xFFFF = 9990 := by
  norm_num [pyTrunc, pyAnd]
  decide

set_option maxHeartbeats 4000000 in
set_option maxRecDepth 8000 in
theorem sample_message_eq :
    (buildCall crcModel sampleEnc sampleConfig initState sampleGps none).1 =
    [36, 85, 0, 149, 1, 6, 234, 131, 163, 68, 77, 105, 108, 108, 105, 116, 97,
     103, 0, 0, 0, 0, 48, 48, 48, 49, 53, 55, 54, 54, 50, 55, 0, 0, 0, 0, 0, 0,
     0, 0, 0, 0, 0, 0, 0, 0, 214, 44, 36, 160, 0, 130, 227, 35, 42, 132, 215,
     241, 253, 234, 236, 234, 165, 213, 238, 229, 252, 238, 226, 240, 234, 244,
     135, 136, 137, 130, 131, 132, 133, 134, 135, 136, 137, 130, 124, 123, 133,
     134, 81, 164, 173, 34, 131, 163, 131, 135, 135, 119, 137, 172, 231, 144,
     133, 134, 135, 136, 137, 130, 131, 132, 133, 134, 135, 136, 137, 130, 131,
     132, 130, 214, 238, 235, 230, 130, 131, 132, 133, 132, 128, 140, 137, 130,
     131, 132, 133, 134, 135, 136, 137, 131, 131, 132, 133, 134, 135, 136, 137,
     251, 203] := by
  simp only [buildCall, build, encrypted_message, checksummed_message,
    plain_message, build_payload, build_header, build_ts, message_timestamp,
    sampleGps, statusOrEmpty, Option.getD_none, Option.getD_some,
    Option.isSome_none, Option.isSome_some, Bool.false_eq_true, if_false,
    if_true, pyTrunc_zero_mul, pyTrunc_zero_speed, pyTrunc_hdop_default]
  decide

theorem extract_getElem (f : Nat → Nat) (off len i : Nat)
    (h : i < (extract f off len).length) :
    (extract f off len)[i] = f (off + i) := by
  simp [extract]

end Proto

namespace Main

theorem update_motion_state_state (b : Beacon) (env : Env) :
    (update_motion_state b env).state = b.state := by
  unfold update_motion_state
  dsimp only
  split_ifs <;> rfl

theorem update_motion_state_reboot (b : Beacon) (env : Env) :
    (update_motion_state b env).reboot_requested = b.reboot_requested := by
  unfold update_motion_state
  dsimp only
  split_ifs <;> rfl

theorem update_motion_state_rf (b : Beacon) (env : Env) :
    (update_motion_state b env).rf_enabled = b.rf_enabled := by
  unfold update_motion_state
  dsimp only
  split_ifs <;> rfl

theorem check_deployment_mode_state (b : Beacon) (env : Env) :
    (check_deployment_mode b env).state = b.state := by
  unfold check_deployment_mode
  split_ifs <;> rfl

theorem check_deployment_mode_reboot (b : Beacon) (env : Env) :
    (check_deployment_mode b env).reboot_requested = b.reboot_requested := by
  unfold check_deployment_mode
  split_ifs <;> rfl

theorem check_deployment_mode_rf (b : Beacon) (env : Env) :
    (check_deployment_mode b env).rf_enabled = b.rf_enabled := by
  unfold check_deployment_mode
  split_ifs <;> rfl

theorem run_state_machine_error (crc16 : List Nat → Nat)
    (enc : (Fin 8 → Nat) → Fin 8 → Nat) (b : Beacon) (env : Env)
    (h : b.state = State.ERROR) :
    run_state_machine crc16 enc b env = (state_error b env, none) := by
  unfold run_state_machine
  rw [h]
  rfl

theorem run_state_machine_transmit (crc16 : List Nat → Nat)
    (enc : (Fin 8 → Nat) → Fin 8 → Nat) (b : Beacon) (env : Env)
    (h : b.state = State.TRANSMIT) :
    run_state_machine crc16 enc b env = state_transmit crc16 enc b env := by
  unfold run_state_machine
  rw [h]
  rfl

theorem state_error_reboot (b : Beacon) (env : Env) :
    (state_error b env).reboot_requested = b.reboot_requested := by
  unfold state_error
  split_ifs <;> rfl

theorem state_error_stay (b : Beacon) (env : Env)
    (hC : PowerManager.is_battery_critical env.battery_raw = true) :
    state_error b env = b := by
  unfold state_error
  rw [hC]
  rfl

theorem state_transmit_snd (crc16 : List Nat → Nat)
    (enc : (Fin 8 → Nat) → Fin 8 → Nat) (b : Beacon) (env : Env)
    (hrf : b.rf_enabled = true) :
    (state_transmit crc16 enc b env).2 = some PyErr.typeError := by
  unfold state_transmit
  rw [hrf]
  rfl

theorem state_transmit_alerts_cleared (crc16 : List Nat → Nat)
    (enc : (Fin 8 → Nat) → Fin 8 → Nat) (b : Beacon) (env : Env)
    (hrf : b.rf_enabled = true) :
    (state_transmit crc16 enc b env).1.pending_alerts = [] := by
  unfold state_transmit
  rw [hrf]
  rfl

theorem run_tick_error_stay (crc16 : List Nat → Nat)
    (enc : (Fin 8 → Nat) → Fin 8 → Nat) (b : Beacon) (env : Env)
    (hS : b.state = State.ERROR) (hR : b.reboot_requested = false)
    (hC : PowerManager.is_battery_critical env.battery_raw = true) :
    (run_tick crc16 enc b env).state = State.ERROR ∧
    (run_tick crc16 enc b env).reboot_requested = false := by
  unfold run_tick
  rw [hR]
  simp only [Bool.false_eq_true, if_false]
  rw [run_state_machine_error crc16 enc _ env (by
    rw [check_deployment_mode_state, update_motion_state_state]
    exact hS)]
  rw [state_error_stay _ env hC]
  constructor
  · rw [check_deployment_mode_state, update_motion_state_state]
    exact hS
  · rw [check_deployment_mode_reboot, update_motion_state_reboot]
    exact hR

theorem run_ticks_error_stay (crc16 : List Nat → Nat)
    (enc : (Fin 8 → Nat) → Fin 8 → Nat) (b : Beacon) (envs : Nat → Env)
    (n : Nat) (hS : b.state = State.ERROR) (hR : b.reboot_requested = false)
    (hC : ∀ i, i < n →
      PowerManager.is_battery_critical (envs i).battery_raw = true) :
    (run_ticks crc16 enc b envs n).state = State.ERROR ∧
    (run_ticks crc16 enc b envs n).reboot_requested = false := by
  induction n with
  | zero => exact ⟨hS, hR⟩
  | succ n ih =>
    obtain ⟨ih1, ih2⟩ := ih (fun i hi => hC i (by omega))
    exact run_tick_error_stay crc16 enc _ (envs n) ih1 ih2
      (hC n (Nat.lt_succ_self n))

theorem run_tick_transmit_error (crc16 : List Nat → Nat)
    (enc : (Fin 8 → Nat) → Fin 8 → Nat) (b : Beacon) (env : Env)
    (hS : b.state = State.TRANSMIT) (hR : b.reboot_requested = false)
    (hrf : b.rf_enabled = true) :
    (run_tick crc16 enc b env).state = State.ERROR ∧
    (run_tick crc16 enc b env).error_message =
      some (ErrMsg.loopError PyErr.typeError) := by
  unfold run_tick
  rw [hR]
  simp only [Bool.false_eq_true, if_false]
  rw [run_state_machine_transmit crc16 enc _ env (by
    rw [check_deployment_mode_state, update_motion_state_state]
    exact hS)]
  rw [state_transmit_snd crc16 enc _ env (by
    rw [check_deployment_mode_rf, update_motion_state_rf]
    exact hrf)]
  exact ⟨rfl, rfl⟩

theorem update_device_status_alerts (b : Beacon) (env : Env) :
    (update_device_status b env).device_status.alerts =
      b.device_status.alerts := by
  unfold update_device_status
  dsimp only
  split_ifs <;> rfl

end Main


/-- Claim C2: decoding inverts encoding of the 5-byte Datong timestamp on
every in-range date-time tuple (year 1980-2107, month 1-12, day 1-31,
hour 0-23, minute and second 0-59). -/
theorem C2_datong_roundtrip (Y M D hr mi s : Nat)
    (hY1 : 1980 ≤ Y) (hY2 : Y ≤ 2107) (hM1 : 1 ≤ M) (hM2 : M ≤ 12)
    (hD1 : 1 ≤ D) (hD2 : D ≤ 31) (hh : hr ≤ 23) (hm : mi ≤ 59) (hs : s ≤ 59) :
    Proto.decode_datong_timestamp (Proto.encode_datong_timestamp Y M D hr mi s) =
      (Y, M, D, hr, mi, s) := by
  have harith : Proto.encode_datong_timestamp Y M D hr mi s =
      [8 * D + M / 2, (Y - 1980) + (M % 2) * 128, 8 * hr + mi / 8,
       (mi % 8) * 32 + s / 2, (s % 2) * 128] := by
    simp only [Proto.encode_datong_timestamp, Bits.and31, Bits.and7, Bits.and1,
      Bits.and127, Nat.shiftRight_eq_div_pow]
    rw [Nat.lor_comm ((Y - 1980) % 128)]
    rw [Bits.shl_lor _ _ 3 (by omega), Bits.shl_lor _ _ 7 (by omega),
      Bits.shl_lor _ _ 3 (by omega), Bits.shl_lor _ _ 5 (by omega)]
    simp only [Nat.shiftLeft_eq, List.cons.injEq, and_true]
    omega
  rw [harith]
  simp only [Proto.decode_datong_timestamp, List.getD_cons_zero,
    List.getD_cons_succ, Bits.and31, Bits.and7, Bits.and1, Bits.and127,
    Nat.shiftRight_eq_div_pow, Prod.mk.injEq]
  rw [Bits.shl_lor _ _ 1 (by omega), Bits.shl_lor _ _ 3 (by omega),
    Bits.shl_lor _ _ 1 (by omega)]
  omega

/-- Witness for C2 at the example of the spec: 2024-12-26 04:37:00. -/
theorem C2_datong_roundtrip_witness :
    (1980 ≤ 2024 ∧ 2024 ≤ 2107 ∧ 1 ≤ 12 ∧ 12 ≤ 12 ∧ 1 ≤ 26 ∧ 26 ≤ 31 ∧
      4 ≤ 23 ∧ 37 ≤ 59 ∧ 0 ≤ 59) ∧
    Proto.decode_datong_timestamp (Proto.encode_datong_timestamp 2024 12 26 4 37 0) =
      (2024, 12, 26, 4, 37, 0) :=
  ⟨by decide,
    C2_datong_roundtrip 2024 12 26 4 37 0 (by decide) (by decide) (by decide)
      (by decide) (by decide) (by decide) (by decide) (by decide) (by decide)⟩

/-- Claim C5: `build` always returns exactly 149 bytes; byte 0 is the
start marker, byte 1 the packet-type marker, bytes 2-3 hold 149
big-endian, byte 9 the ciNet-type marker, and the 12-byte source-type
field, right-trimmed of null padding, equals the configured source-type
string (which per the data model is at most 11 characters long and free
of null characters). -/
theorem C5_message_structure (crc16 : List Nat → Nat)
    (enc : (Fin 8 → Nat) → Fin 8 → Nat) (cfg : Proto.CiNetConfig)
    (st : Proto.MsgState) (g : Proto.GpsDict) (d : Option Proto.StatusDict)
    (hlen : cfg.source_type.length ≤ 11) (hnz : ∀ c ∈ cfg.source_type, c ≠ 0) :
    (Proto.buildCall crc16 enc cfg st g d).1.length = 149 ∧
    (Proto.buildCall crc16 enc cfg st g d).1.getD 0 0 = Proto.START_BYTE ∧
    (Proto.buildCall crc16 enc cfg st g d).1.getD 1 0 = Proto.PACKET_TYPE ∧
    (Proto.buildCall crc16 enc cfg st g d).1.getD 2 0 * 256 +
      (Proto.buildCall crc16 enc cfg st g d).1.getD 3 0 = 149 ∧
    (Proto.buildCall crc16 enc cfg st g d).1.getD 9 0 = Proto.CINET_TYPE ∧
    Proto.rstripNulls (((Proto.buildCall crc16 enc cfg st g d).1.drop 10).take 12) =
      cfg.source_type := by
  refine ⟨Proto.extract_length _ 0 Proto.MSG_LENGTH, ?_, ?_, ?_, ?_, ?_⟩
  · rw [show (Proto.buildCall crc16 enc cfg st g d).1 =
      Proto.extract (Proto.build crc16 enc cfg st.buffer st.sequence g d).1 0
        Proto.MSG_LENGTH from rfl]
    rw [Proto.extract_getD _ _ _ _ (by decide)]
    rw [Proto.build_low crc16 enc cfg st.buffer st.sequence g d (0 + 0) (by omega)]
    exact Proto.header_byte0 cfg _ _ st.buffer
  · rw [show (Proto.buildCall crc16 enc cfg st g d).1 =
      Proto.extract (Proto.build crc16 enc cfg st.buffer st.sequence g d).1 0
        Proto.MSG_LENGTH from rfl]
    rw [Proto.extract_getD _ _ _ _ (by decide)]
    rw [Proto.build_low crc16 enc cfg st.buffer st.sequence g d (0 + 1) (by omega)]
    exact Proto.header_byte1 cfg _ _ st.buffer
  · rw [show (Proto.buildCall crc16 enc cfg st g d).1 =
      Proto.extract (Proto.build crc16 enc cfg st.buffer st.sequence g d).1 0
        Proto.MSG_LENGTH from rfl]
    rw [Proto.extract_getD _ _ _ _ (by decide), Proto.extract_getD _ _ _ _ (by decide)]
    rw [Proto.build_low crc16 enc cfg st.buffer st.sequence g d (0 + 2) (by omega)]
    rw [Proto.build_low crc16 enc cfg st.buffer st.sequence g d (0 + 3) (by omega)]
    rw [Proto.header_byte2 cfg _ _ st.buffer, Proto.header_byte3 cfg _ _ st.buffer]
  · rw [show (Proto.buildCall crc16 enc cfg st g d).1 =
      Proto.extract (Proto.build crc16 enc cfg st.buffer st.sequence g d).1 0
        Proto.MSG_LENGTH from rfl]
    rw [Proto.extract_getD _ _ _ _ (by decide)]
    rw [Proto.build_low crc16 enc cfg st.buffer st.sequence g d (0 + 9) (by omega)]
    exact Proto.header_byte9 cfg _ _ st.buffer
  · rw [show (Proto.buildCall crc16 enc cfg st g d).1 =
      Proto.extract (Proto.build crc16 enc cfg st.buffer st.sequence g d).1 0
        Proto.MSG_LENGTH from rfl]
    rw [show Proto.MSG_LENGTH = 149 from rfl,
      Proto.extract_drop_take _ 10 12 149 (by omega)]
    rw [show Proto.extract (Proto.build crc16 enc cfg st.buffer st.sequence g d).1 10 12 =
        Proto.get_source_type_bytes cfg from ?_]
    · exact Proto.rstrip_source_type cfg hlen hnz
    · apply List.ext_getElem
      · rw [Proto.extract_length, Proto.source_type_bytes_length]
      · intro i h1 h2
        rw [Proto.extract_getElem _ _ _ _ h1]
        rw [Proto.build_low crc16 enc cfg st.buffer st.sequence g d (10 + i) (by
          rw [Proto.extract_length] at h1
          omega)]
        rw [Proto.header_src_byte cfg _ _ st.buffer (10 + i) (by omega) (by
          rw [Proto.extract_length] at h1
          omega)]
        rw [List.getD_eq_getElem _ _ (by
          rw [Proto.source_type_bytes_length]
          rw [Proto.extract_length] at h1
          omega)]
        congr 1
        omega

/-- Claim C6: three consecutive calls to `build` yield sequence bytes
s, (s+1) mod 256, (s+2) mod 256, where s is the first message's sequence
byte; the counter is incremented modulo 256 exactly once per built
message, and the state sequence after a call equals the byte written. -/
theorem C6_sequence_increment (crc16 : List Nat → Nat)
    (enc : (Fin 8 → Nat) → Fin 8 → Nat) (cfg : Proto.CiNetConfig)
    (st : Proto.MsgState) (g1 g2 g3 : Proto.GpsDict)
    (d1 d2 d3 : Option Proto.StatusDict) :
    (Proto.buildCall crc16 enc cfg
        (Proto.buildCall crc16 enc cfg st g1 d1).2 g2 d2).1.getD 4 0 =
      ((Proto.buildCall crc16 enc cfg st g1 d1).1.getD 4 0 + 1) % 256 ∧
    (Proto.buildCall crc16 enc cfg
        (Proto.buildCall crc16 enc cfg
          (Proto.buildCall crc16 enc cfg st g1 d1).2 g2 d2).2 g3 d3).1.getD 4 0 =
      ((Proto.buildCall crc16 enc cfg st g1 d1).1.getD 4 0 + 2) % 256 ∧
    (Proto.buildCall crc16 enc cfg st g1 d1).1.getD 4 0 = (st.sequence + 1) % 256 ∧
    (Proto.buildCall crc16 enc cfg st g1 d1).2.sequence =
      (Proto.buildCall crc16 enc cfg st g1 d1).1.getD 4 0 := by
  refine ⟨?_, ?_, ?_, ?_⟩ <;>
    simp only [Proto.buildCall_byte4, Proto.buildCall_sequence, Bits.and255] <;>
    omega

/-- Claim C7 (amended): repeated `build` calls with identical inputs give
messages that agree everywhere except the sequence byte 4 and the
checksum bytes 147-148 derived from it, and two calls produce different
sequence bytes exactly when their call indices differ mod 256; in
particular the stream of messages is periodic with period 256 rather
than never repeating. -/
theorem C7_message_periodicity (crc16 : List Nat → Nat)
    (enc : (Fin 8 → Nat) → Fin 8 → Nat) (cfg : Proto.CiNetConfig) :
    (∀ (b1 b2 : Nat → Nat) (s1 s2 : Nat) (g : Proto.GpsDict)
        (d : Option Proto.StatusDict) (j : Nat), j < 149 → j ≠ 4 → j ≠ 147 →
        j ≠ 148 →
        (Proto.build crc16 enc cfg b1 s1 g d).1 j =
          (Proto.build crc16 enc cfg b2 s2 g d).1 j) ∧
    (∀ (g : Proto.GpsDict) (d : Option Proto.StatusDict) (m n : Nat),
        m % 256 = n % 256 →
        Proto.messageAt crc16 enc cfg g d (m + 1) =
          Proto.messageAt crc16 enc cfg g d (n + 1)) ∧
    (∀ (g : Proto.GpsDict) (d : Option Proto.StatusDict) (m n : Nat),
        (m + 1) % 256 ≠ (n + 1) % 256 →
        (Proto.messageAt crc16 enc cfg g d (m + 1)).getD 4 0 ≠
          (Proto.messageAt crc16 enc cfg g d (n + 1)).getD 4 0) := by
  refine ⟨?_, ?_, ?_⟩
  · intro b1 b2 s1 s2 g d j hj h4 h147 h148
    exact Proto.build_bytes_indep crc16 enc cfg b1 b2 s1 s2 g d j (by omega) h4
  · intro g d m n h
    exact Proto.messageAt_eq_of_seq crc16 enc cfg g d m n h
  · intro g d m n h
    rw [Proto.messageAt_byte4, Proto.messageAt_byte4, Bits.and255, Bits.and255]
    omega

theorem C7_message_periodicity_witness :
    Proto.messageAt Proto.crcModel Proto.sampleEnc Proto.sampleConfig
        Proto.sampleGps none (259 + 1) =
      Proto.messageAt Proto.crcModel Proto.sampleEnc Proto.sampleConfig
        Proto.sampleGps none (3 + 1) ∧
    (Proto.messageAt Proto.crcModel Proto.sampleEnc Proto.sampleConfig
        Proto.sampleGps none (1 + 1)).getD 4 0 ≠
      (Proto.messageAt Proto.crcModel Proto.sampleEnc Proto.sampleConfig
        Proto.sampleGps none (2 + 1)).getD 4 0 ∧
    (Proto.build Proto.crcModel Proto.sampleEnc Proto.sampleConfig
        (fun _ => 0) 5 Proto.sampleGps none).1 0 =
      (Proto.build Proto.crcModel Proto.sampleEnc Proto.sampleConfig
        (fun _ => 1) 9 Proto.sampleGps none).1 0 :=
  ⟨(C7_message_periodicity Proto.crcModel Proto.sampleEnc Proto.sampleConfig).2.1
      Proto.sampleGps none 259 3 (by decide),
   (C7_message_periodicity Proto.crcModel Proto.sampleEnc Proto.sampleConfig).2.2
      Proto.sampleGps none 1 2 (by decide),
   (C7_message_periodicity Proto.crcModel Proto.sampleEnc Proto.sampleConfig).1
      (fun _ => 0) (fun _ => 1) 5 9 Proto.sampleGps none 0 (by decide) (by decide)
      (by decide) (by decide)⟩

/-- Claim C7 (counterexample): with identical inputs, call number 257 and
call number 1 return bit-identical messages, refuting the claim that no
two distinct calls ever coincide. (Spec-modelled CRC and cipher stand in
for the sources missing from the repository.) -/
theorem C7_counterexample :
    Proto.messageAt Proto.crcModel Proto.sampleEnc Proto.sampleConfig
        Proto.sampleGps none 257 =
      Proto.messageAt Proto.crcModel Proto.sampleEnc Proto.sampleConfig
        Proto.sampleGps none 1 ∧
    (257 : Nat) ≠ 1 :=
  ⟨Proto.messageAt_eq_of_seq Proto.crcModel Proto.sampleEnc Proto.sampleConfig
      Proto.sampleGps none 256 0 (by decide), by decide⟩

/-- Claim C1 (amended): both 16-bit checksums are stored complemented and
split LITTLE-endian — least-significant complemented byte first: the
payload checksum at bytes 53-54 of the pre-encryption message, and the
whole-message checksum at bytes 147-148 of the returned message. -/
theorem C1_checksum_little_endian (crc16 : List Nat → Nat)
    (enc : (Fin 8 → Nat) → Fin 8 → Nat) (cfg : Proto.CiNetConfig)
    (s : Nat) (g : Proto.GpsDict) (d : Option Proto.StatusDict)
    (b : Nat → Nat) (st : Proto.MsgState) :
    Proto.checksummed_message crc16 cfg s g d b 53 =
      255 - crc16 (Proto.extract (Proto.plain_message cfg s g d b) 55 92) % 256 ∧
    Proto.checksummed_message crc16 cfg s g d b 54 =
      255 - (crc16 (Proto.extract (Proto.plain_message cfg s g d b) 55 92) >>> 8) % 256 ∧
    (Proto.buildCall crc16 enc cfg st g d).1.getD 147 0 =
      255 - crc16 ((Proto.buildCall crc16 enc cfg st g d).1.take 147) % 256 ∧
    (Proto.buildCall crc16 enc cfg st g d).1.getD 148 0 =
      255 - (crc16 ((Proto.buildCall crc16 enc cfg st g d).1.take 147) >>> 8) % 256 := by
  refine ⟨Proto.checksummed_byte53 crc16 cfg s g d b,
    Proto.checksummed_byte54 crc16 cfg s g d b, ?_, ?_⟩
  · rw [Proto.message_take147 crc16 enc cfg st g d]
    rw [show (Proto.buildCall crc16 enc cfg st g d).1 =
      Proto.extract (Proto.build crc16 enc cfg st.buffer st.sequence g d).1 0
        Proto.MSG_LENGTH from rfl]
    rw [Proto.extract_getD _ _ _ _ (by decide)]
    exact Proto.build_byte147 crc16 enc cfg st.buffer st.sequence g d
  · rw [Proto.message_take147 crc16 enc cfg st g d]
    rw [show (Proto.buildCall crc16 enc cfg st g d).1 =
      Proto.extract (Proto.build crc16 enc cfg st.buffer st.sequence g d).1 0
        Proto.MSG_LENGTH from rfl]
    rw [Proto.extract_getD _ _ _ _ (by decide)]
    exact Proto.build_byte148 crc16 enc cfg st.buffer st.sequence g d

set_option maxRecDepth 8000 in
set_option maxHeartbeats 1000000 in
/-- Claim C1 (counterexample): on the test-suite configuration and GPS
fixture, byte 147 of the built message does not equal the complemented
HIGH byte of the whole-message checksum, refuting big-endian storage;
the code stores the complemented low byte first. (Spec-modelled CRC and
cipher stand in for the sources missing from the repository.) -/
theorem C1_counterexample :
    (Proto.buildCall Proto.crcModel Proto.sampleEnc Proto.sampleConfig
        Proto.initState Proto.sampleGps none).1.getD 147 0 ≠
      255 - (Proto.crcModel ((Proto.buildCall Proto.crcModel Proto.sampleEnc
        Proto.sampleConfig Proto.initState Proto.sampleGps none).1.take 147)
        >>> 8) % 256 := by
  rw [Proto.sample_message_eq]
  decide

/-- Claim C3 (amended): in ConnectNetwork with RF enabled, once the
incremented retry counter reaches `Timing.MAX_RETRIES` after a connect
failure the controller falls back to Ready in degraded operation, but
the retry counter is NOT reset: it keeps the incremented value. -/
theorem C3_fallback_keeps_retry_count (b : Main.Beacon) (env : Main.Env)
    (hrf : b.rf_enabled = true) (hnet : env.net_connected = false)
    (hok : env.connect_ok = false)
    (hr : Main.Timing.MAX_RETRIES ≤ b.retry_count + 1) :
    (Main.state_network_connect b env).state = Main.State.READY ∧
    (Main.state_network_connect b env).retry_count = b.retry_count + 1 ∧
    (Main.state_network_connect b env).retry_count ≠ 0 := by
  unfold Main.state_network_connect
  rw [hrf, hnet, hok]
  simp only [Bool.true_eq_false, Bool.false_eq_true, not_true, if_false,
    ite_false, if_neg (by simp : ¬ (False : Prop))]
  rw [if_pos (by exact hr)]
  exact ⟨rfl, rfl, Nat.succ_ne_zero b.retry_count⟩

theorem C3_fallback_keeps_retry_count_witness :
    ({ retry_count := 2 } : Main.Beacon).rf_enabled = true ∧
    Main.Timing.MAX_RETRIES ≤ ({ retry_count := 2 } : Main.Beacon).retry_count + 1 ∧
    ((Main.state_network_connect ({ retry_count := 2 } : Main.Beacon) {}).state =
        Main.State.READY ∧
      (Main.state_network_connect ({ retry_count := 2 } : Main.Beacon) {}).retry_count =
        ({ retry_count := 2 } : Main.Beacon).retry_count + 1 ∧
      (Main.state_network_connect ({ retry_count := 2 } : Main.Beacon) {}).retry_count ≠ 0) :=
  ⟨rfl, by decide,
    C3_fallback_keeps_retry_count ({ retry_count := 2 } : Main.Beacon) {} rfl rfl rfl
      (by decide)⟩

/-- Claim C3 (counterexample): starting from ConnectNetwork with RF
enabled, default Active configuration and a zero retry counter, three
consecutive connect failures move the controller to Ready with the retry
counter left at 3, not reset to zero. -/
theorem C3_counterexample :
    (Main.state_network_connect (Main.state_network_connect
        (Main.state_network_connect
          ({ state := Main.State.NETWORK_CONNECT } : Main.Beacon) {}) {}) {}).state =
      Main.State.READY ∧
    (Main.state_network_connect (Main.state_network_connect
        (Main.state_network_connect
          ({ state := Main.State.NETWORK_CONNECT } : Main.Beacon) {}) {}) {}).retry_count = 3 ∧
    (3 : Nat) ≠ 0 :=
  ⟨rfl, rfl, by decide⟩

/-- Claim C4 (amended): with RF enabled, the Transmit step clears the
pending-alert set BEFORE any message is sent, and the step then raises
TypeError (the alert mask is never delivered), so pending alerts are
silently dropped on this failure rather than retained for a later
message. -/
theorem C4_alerts_cleared_before_send (crc16 : List Nat → Nat)
    (enc : (Fin 8 → Nat) → Fin 8 → Nat) (b : Main.Beacon) (env : Main.Env)
    (hrf : b.rf_enabled = true) :
    (Main.state_transmit crc16 enc b env).1.pending_alerts = [] ∧
    (Main.state_transmit crc16 enc b env).2 = some Main.PyErr.typeError :=
  ⟨Main.state_transmit_alerts_cleared crc16 enc b env hrf,
   Main.state_transmit_snd crc16 enc b env hrf⟩

theorem C4_alerts_cleared_before_send_witness :
    ({} : Main.Beacon).rf_enabled = true ∧
    ((Main.state_transmit Proto.crcModel Proto.sampleEnc ({} : Main.Beacon)
        {}).1.pending_alerts = [] ∧
      (Main.state_transmit Proto.crcModel Proto.sampleEnc ({} : Main.Beacon)
        {}).2 = some Main.PyErr.typeError) :=
  ⟨rfl, C4_alerts_cleared_before_send Proto.crcModel Proto.sampleEnc
    ({} : Main.Beacon) {} rfl⟩

/-- Claim C4 (counterexample): a beacon holding one pending motion-start
alert enters Transmit with RF enabled; the step empties the pending set
and fails with TypeError, so the accumulated alert is lost — it is
neither reported in this message nor retained for a later one. -/
theorem C4_counterexample :
    (Main.state_transmit Proto.crcModel Proto.sampleEnc
        ({ state := Main.State.TRANSMIT,
           pending_alerts := [(Main.AlertType.MOTION_START, 0)] } : Main.Beacon)
        {}).1.pending_alerts = [] ∧
    (Main.state_transmit Proto.crcModel Proto.sampleEnc
        ({ state := Main.State.TRANSMIT,
           pending_alerts := [(Main.AlertType.MOTION_START, 0)] } : Main.Beacon)
        {}).2 = some Main.PyErr.typeError ∧
    ([(Main.AlertType.MOTION_START, 0)] : List (Nat × Nat)) ≠ [] :=
  ⟨rfl, rfl, by decide⟩

/-- Claim C8: the reporting interval follows the source cascade — the
moving rate inside the deployment window or in continuous mode, the
standby rate for (forever-)standby modes, and otherwise the moving rate
exactly when the motion flag is set, the stopped rate when it is not. -/
theorem C8_report_interval_cascade (b : Main.Beacon) :
    (b.deployment_mode = true →
      Main.get_report_interval_ms b =
        b.config.gprs_rate_moving_sec.getD 10 * 1000) ∧
    (b.deployment_mode = false → b.continuous_mode = true →
      Main.get_report_interval_ms b =
        b.config.gprs_rate_moving_sec.getD 10 * 1000) ∧
    (b.deployment_mode = false → b.continuous_mode = false →
      (b.config.operating_mode.getD Main.OperatingMode.ACTIVE =
          Main.OperatingMode.STANDBY ∨
        b.config.operating_mode.getD Main.OperatingMode.ACTIVE =
          Main.ModeStr.forever_standby) →
      Main.get_report_interval_ms b =
        b.config.gprs_rate_standby_sec.getD 3600 * 1000) ∧
    (b.deployment_mode = false → b.continuous_mode = false →
      b.config.operating_mode.getD Main.OperatingMode.ACTIVE ≠
        Main.OperatingMode.STANDBY →
      b.config.operating_mode.getD Main.OperatingMode.ACTIVE ≠
        Main.ModeStr.forever_standby →
      b.is_moving = true →
      Main.get_report_interval_ms b =
        b.config.gprs_rate_moving_sec.getD 10 * 1000) ∧
    (b.deployment_mode = false → b.continuous_mode = false →
      b.config.operating_mode.getD Main.OperatingMode.ACTIVE ≠
        Main.OperatingMode.STANDBY →
      b.config.operating_mode.getD Main.OperatingMode.ACTIVE ≠
        Main.ModeStr.forever_standby →
      b.is_moving = false →
      Main.get_report_interval_ms b =
        b.config.gprs_rate_stopped_sec.getD 60 * 1000) := by
  refine ⟨?_, ?_, ?_, ?_, ?_⟩
  · intro h1
    unfold Main.get_report_interval_ms
    rw [h1]
    rfl
  · intro h1 h2
    unfold Main.get_report_interval_ms
    rw [h1, h2]
    rfl
  · intro h1 h2 hm
    unfold Main.get_report_interval_ms
    rw [h1, h2]
    simp only [Bool.false_eq_true, if_false]
    rw [if_pos hm]
  · intro h1 h2 hm1 hm2 hmov
    unfold Main.get_report_interval_ms
    rw [h1, h2]
    simp only [Bool.false_eq_true, if_false]
    rw [if_neg (by tauto), hmov]
    rfl
  · intro h1 h2 hm1 hm2 hmov
    unfold Main.get_report_interval_ms
    rw [h1, h2]
    simp only [Bool.false_eq_true, if_false]
    rw [if_neg (by tauto), hmov]
    rfl

theorem C8_report_interval_cascade_witness :
    ({ deployment_mode := false } : Main.Beacon).is_moving = false ∧
    Main.get_report_interval_ms ({ deployment_mode := false } : Main.Beacon) =
      60 * 1000 ∧
    Main.get_report_interval_ms
      ({ deployment_mode := false, is_moving := true } : Main.Beacon) =
      10 * 1000 :=
  ⟨rfl,
   (C8_report_interval_cascade ({ deployment_mode := false } : Main.Beacon)).2.2.2.2
     rfl rfl (by decide) (by decide) rfl,
   (C8_report_interval_cascade
     ({ deployment_mode := false, is_moving := true } : Main.Beacon)).2.2.2.1
     rfl rfl (by decide) (by decide) rfl⟩

/-- Claim C9: a battery at or below the critical threshold sends Startup
straight to Error; as long as every tick still reads a critical battery
(and no reboot is requested) the controller never leaves Error; once the
battery is no longer critical, the Error state clears the error message
and transitions to Init. -/
theorem C9_battery_critical_latch (crc16 : List Nat → Nat)
    (enc : (Fin 8 → Nat) → Fin 8 → Nat) :
    (∀ (b : Main.Beacon) (env : Main.Env),
      Main.PowerManager.is_battery_critical env.battery_raw = true →
      (Main.state_startup b env).state = Main.State.ERROR) ∧
    (∀ (b : Main.Beacon) (envs : Nat → Main.Env) (n : Nat),
      b.state = Main.State.ERROR → b.reboot_requested = false →
      (∀ i, i < n →
        Main.PowerManager.is_battery_critical (envs i).battery_raw = true) →
      (Main.run_ticks crc16 enc b envs n).state = Main.State.ERROR) ∧
    (∀ (b : Main.Beacon) (env : Main.Env),
      Main.PowerManager.is_battery_critical env.battery_raw = false →
      (Main.state_error b env).state = Main.State.INIT ∧
      (Main.state_error b env).error_message = none) := by
  refine ⟨?_, ?_, ?_⟩
  · intro b env hC
    unfold Main.state_startup
    rw [hC]
    rfl
  · intro b envs n hS hR hC
    exact (Main.run_ticks_error_stay crc16 enc b envs n hS hR hC).1
  · intro b env hC
    unfold Main.state_error
    rw [hC]
    exact ⟨rfl, rfl⟩

theorem C9_battery_critical_latch_witness :
    Main.PowerManager.is_battery_critical 0 = true ∧
    Main.PowerManager.is_battery_critical 65535 = false ∧
    (Main.state_startup ({} : Main.Beacon) { battery_raw := 0 }).state =
      Main.State.ERROR ∧
    (Main.run_ticks Proto.crcModel Proto.sampleEnc
      ({ state := Main.State.ERROR } : Main.Beacon) (fun _ => { battery_raw := 0 })
      3).state = Main.State.ERROR ∧
    (Main.state_error ({ state := Main.State.ERROR } : Main.Beacon)
      { battery_raw := 65535 }).state = Main.State.INIT := by
  have hcrit : Main.PowerManager.is_battery_critical 0 = true := by
    unfold Main.PowerManager.is_battery_critical
      Main.PowerManager.read_battery_voltage
    norm_num [Main.PowerManager.ADC_VREF, Main.PowerManager.BATTERY_EMPTY,
      Main.PowerManager.VOLTAGE_DIVIDER_RATIO]
  have hfull : Main.PowerManager.is_battery_critical 65535 = false := by
    unfold Main.PowerManager.is_battery_critical
      Main.PowerManager.read_battery_voltage
    norm_num [Main.PowerManager.ADC_VREF, Main.PowerManager.BATTERY_EMPTY,
      Main.PowerManager.VOLTAGE_DIVIDER_RATIO]
  refine ⟨hcrit, hfull, ?_, ?_, ?_⟩
  · exact (C9_battery_critical_latch Proto.crcModel Proto.sampleEnc).1 {}
      { battery_raw := 0 } hcrit
  · exact (C9_battery_critical_latch Proto.crcModel Proto.sampleEnc).2.1
      ({ state := Main.State.ERROR } : Main.Beacon) (fun _ => { battery_raw := 0 })
      3 rfl rfl (fun i _ => hcrit)
  · exact ((C9_battery_critical_latch Proto.crcModel Proto.sampleEnc).2.2
      ({ state := Main.State.ERROR } : Main.Beacon) { battery_raw := 65535 }
      hfull).1

/-- Claim C10: the Transmit state calls `build` with 3 positional
arguments against a signature accepting at most 2, so with RF enabled the
step raises TypeError and one loop tick from Transmit lands in Error via
the catch-all; the message's alerts field at bytes 144-145 always comes
from the device-status dict (big-endian, defaulting to 0), and
`_update_device_status` never writes it (the fresh DeviceStatus default
is 0), so the controller's accumulated alert mask never reaches the
message. -/
theorem C10_transmit_arity_error :
    Main.buildCallArgCount = 3 ∧ Main.buildMaxPositional = 2 ∧
    Main.buildMaxPositional < Main.buildCallArgCount ∧
    (∀ (crc16 : List Nat → Nat) (enc : (Fin 8 → Nat) → Fin 8 → Nat)
        (b : Main.Beacon) (env : Main.Env), b.rf_enabled = true →
      (Main.state_transmit crc16 enc b env).2 = some Main.PyErr.typeError) ∧
    (∀ (crc16 : List Nat → Nat) (enc : (Fin 8 → Nat) → Fin 8 → Nat)
        (b : Main.Beacon) (env : Main.Env),
      b.state = Main.State.TRANSMIT → b.reboot_requested = false →
      b.rf_enabled = true →
      (Main.run_tick crc16 enc b env).state = Main.State.ERROR ∧
      (Main.run_tick crc16 enc b env).error_message =
        some (Main.ErrMsg.loopError Main.PyErr.typeError)) ∧
    (∀ (cfg : Proto.CiNetConfig) (s : Nat) (g : Proto.GpsDict)
        (d : Option Proto.StatusDict) (bb : Nat → Nat),
      Proto.plain_message cfg s g d bb 144 =
        ((Proto.statusOrEmpty d).alerts.getD 0 >>> 8) &&& 0xFF ∧
      Proto.plain_message cfg s g d bb 145 =
        (Proto.statusOrEmpty d).alerts.getD 0 &&& 0xFF) ∧
    (∀ (b : Main.Beacon) (env : Main.Env),
      (Main.update_device_status b env).device_status.alerts =
        b.device_status.alerts) ∧
    ({} : Main.DeviceStatus).alerts = 0 := by
  refine ⟨rfl, rfl, by decide, ?_, ?_, ?_, ?_, rfl⟩
  · intro crc16 enc b env hrf
    exact Main.state_transmit_snd crc16 enc b env hrf
  · intro crc16 enc b env hS hR hrf
    exact Main.run_tick_transmit_error crc16 enc b env hS hR hrf
  · intro cfg s g d bb
    exact ⟨Proto.plain_byte144 cfg s g d bb, Proto.plain_byte145 cfg s g d bb⟩
  · intro b env
    exact Main.update_device_status_alerts b env

theorem C10_transmit_arity_error_witness :
    ({ state := Main.State.TRANSMIT } : Main.Beacon).rf_enabled = true ∧
    (Main.run_tick Proto.crcModel Proto.sampleEnc
        ({ state := Main.State.TRANSMIT } : Main.Beacon) {}).state =
      Main.State.ERROR ∧
    (Main.run_tick Proto.crcModel Proto.sampleEnc
        ({ state := Main.State.TRANSMIT } : Main.Beacon) {}).error_message =
      some (Main.ErrMsg.loopError Main.PyErr.typeError) ∧
    Proto.plain_message Proto.sampleConfig 1 Proto.sampleGps
        (some ({} : Main.DeviceStatus).to_dict) (fun _ => 0) 145 = 0 := by
  refine ⟨rfl, ?_, ?_, ?_⟩
  · exact (C10_transmit_arity_error.2.2.2.2.1 Proto.crcModel Proto.sampleEnc
      ({ state := Main.State.TRANSMIT } : Main.Beacon) {} rfl rfl rfl).1
  · exact (C10_transmit_arity_error.2.2.2.2.1 Proto.crcModel Proto.sampleEnc
      ({ state := Main.State.TRANSMIT } : Main.Beacon) {} rfl rfl rfl).2
  · have h := (C10_transmit_arity_error.2.2.2.2.2.1 Proto.sampleConfig 1
      Proto.sampleGps (some ({} : Main.DeviceStatus).to_dict) (fun _ => 0)).2
    rw [h]
    rfl

theorem C5_message_structure_witness :
    Proto.sampleConfig.source_type.length ≤ 11 ∧
    ((Proto.buildCall Proto.crcModel Proto.sampleEnc Proto.sampleConfig
        Proto.initState Proto.sampleGps none).1.length = 149 ∧
      (Proto.buildCall Proto.crcModel Proto.sampleEnc Proto.sampleConfig
        Proto.initState Proto.sampleGps none).1.getD 0 0 = Proto.START_BYTE ∧
      (Proto.buildCall Proto.crcModel Proto.sampleEnc Proto.sampleConfig
        Proto.initState Proto.sampleGps none).1.getD 1 0 = Proto.PACKET_TYPE ∧
      (Proto.buildCall Proto.crcModel Proto.sampleEnc Proto.sampleConfig
        Proto.initState Proto.sampleGps none).1.getD 2 0 * 256 +
        (Proto.buildCall Proto.crcModel Proto.sampleEnc Proto.sampleConfig
          Proto.initState Proto.sampleGps none).1.getD 3 0 = 149 ∧
      (Proto.buildCall Proto.crcModel Proto.sampleEnc Proto.sampleConfig
        Proto.initState Proto.sampleGps none).1.getD 9 0 = Proto.CINET_TYPE ∧
      Proto.rstripNulls (((Proto.buildCall Proto.crcModel Proto.sampleEnc
        Proto.sampleConfig Proto.initState Proto.sampleGps none).1.drop 10).take 12) =
        Proto.sampleConfig.source_type) :=
  ⟨by decide, C5_message_structure Proto.crcModel Proto.sampleEnc Proto.sampleConfig
    Proto.initState Proto.sampleGps none (by decide) (by decide)⟩
